import Mathlib

/-!
Verification of the journal module (Odoo addon: models and controllers under
src/models and src/controllers) against its natural-language specification.

The development is a shallow embedding: Python model methods become Lean
functions over explicit record states; the ORM persistence layer (search,
browse, record sets) is modelled as explicit lists threaded through the
functions.  Machine integers are modelled as Int/Nat (no overflow concerns
arise in the source), fallible operations return Except, and float
percentages are modelled as exact rationals.
-/

set_option maxRecDepth 8000

namespace Journal

/-- Calendar date, modelling Python datetime.date for the entry_date field. -/
structure Date where
  year : Nat
  month : Nat
  day : Nat
deriving Repr, DecidableEq

/-- Journal entry record, modelling the persisted fields of journal.entry
(src/models/journal_entry.py) that the verified claims touch.  The stored
computed fields word_count and char_count are carried as plain stored values;
their recomputation from content by the ORM is outside the embedding.  The
notebook name is denormalised onto the entry (the source reads it through
the notebook_id many2one). -/
structure Entry where
  id : Nat
  name : String
  content : String
  word_count : Int
  char_count : Int
  current_version : Int := 1
  mood : Option String := none
  notebook_id : Nat := 0
  notebook_name : String := ""
  user_id : Nat := 0
  entry_date : Date := ⟨2024, 1, 1⟩
  state : String := "draft"
  is_favorite : Bool := false
  tag_names : List String := []
deriving Repr, DecidableEq

/-- Version snapshot record, modelling journal.entry.version
(src/models/journal_entry_version.py). -/
structure Version where
  id : Nat
  entry_id : Nat
  version_number : Int
  content : String
  word_count : Int
  char_count : Int
  created_by : Nat := 0
  create_date : String := ""
deriving Repr, DecidableEq

/-- State threaded through the version-management methods: the entry being
acted on, the version table (which may also hold versions of other entries),
and the id the ORM will give to the next created version row. -/
structure Store where
  entry : Entry
  versions : List Version
  next_vid : Nat
  uid : Nat := 0
deriving Repr, DecidableEq

/-- Values dictionary passed to write: a field is in the dictionary iff the
corresponding option is some.  Only the fields relevant to the claims are
modelled; other_fields records the presence of any further keys. -/
structure Vals where
  content : Option String := none
  word_count : Option Int := none
  char_count : Option Int := none
  state : Option String := none
  other_fields : Bool := false
deriving Repr, DecidableEq

/-- Snapshot row built by _create_version for the current state of the
entry (src/models/journal_entry.py lines 224-231). -/
def snapOf (st : Store) : Version :=
  { id := st.next_vid
    entry_id := st.entry.id
    version_number := st.entry.current_version
    content := st.entry.content
    word_count := st.entry.word_count
    char_count := st.entry.char_count
    created_by := st.uid }

/-- Model of JournalEntry._create_version (src/models/journal_entry.py
lines 219-235): when the entry content is truthy (non-empty), append a
version row capturing the entry content and counts at the current version
number, then increment the version counter. -/
def create_version (st : Store) : Store :=
  if st.entry.content ≠ "" then
    { st with
      versions := st.versions ++ [snapOf st]
      next_vid := st.next_vid + 1
      entry := { st.entry with current_version := st.entry.current_version + 1 } }
  else st

/-- Application of a write values dictionary to the entry record (the
super().write(vals) call): each present key overwrites the stored field. -/
def applyVals (e : Entry) (vals : Vals) : Entry :=
  { e with
    content := vals.content.getD e.content
    word_count := vals.word_count.getD e.word_count
    char_count := vals.char_count.getD e.char_count
    state := vals.state.getD e.state }

/-- Model of JournalEntry.write (src/models/journal_entry.py lines 243-247):
if the content key is present in vals, _create_version runs first (on the
pre-write state), then the values are applied. -/
def write (st : Store) (vals : Vals) : Store :=
  let st1 := if vals.content.isSome then create_version st else st
  { st1 with entry := applyVals st1.entry vals }

/-- Model of JournalEntry.action_restore_version (src/models/journal_entry.py
lines 310-323): browse the version id; when it belongs to this entry,
_create_version runs, then write is called with the target version content
and counts (and write itself runs _create_version again, since the content
key is present).  An unknown id or a foreign version leaves the state
untouched. -/
def action_restore_version (st : Store) (version_id : Nat) : Store :=
  match st.versions.find? (fun v => v.id = version_id) with
  | none => st
  | some version =>
    if version.entry_id = st.entry.id then
      let st1 := create_version st
      write st1
        { content := some version.content
          word_count := some version.word_count
          char_count := some version.char_count }
    else st

/-- N successive content-only writes, one per element of the list, in order
(each element is the new content value supplied to write). -/
def writeContents (st : Store) : List String → Store
  | [] => st
  | c :: rest => writeContents (write st { content := some c }) rest

/-- Concrete store used to evaluate the restore path: an entry whose content
was edited once (counter already 2, one stored version) about to restore
version number 1. -/
def restoreStore : Store :=
  { entry :=
      { id := 1, name := "Trip", content := "<p>B</p>", word_count := 1
        char_count := 1, current_version := 2 }
    versions :=
      [{ id := 10, entry_id := 1, version_number := 1, content := "<p>A</p>"
         word_count := 1, char_count := 1 }]
    next_vid := 11 }

/-- Concrete store used to evaluate write with an unchanged content value:
a fresh entry (counter 1, no versions yet). -/
def rewriteStore : Store :=
  { entry :=
      { id := 1, name := "Trip", content := "<p>A</p>", word_count := 1
        char_count := 1, current_version := 1 }
    versions := []
    next_vid := 10 }

/-- Notebook record, modelling the persisted fields of journal.notebook
(src/models/journal_notebook.py) needed by the deletion claims. -/
structure Notebook where
  id : Nat
  name : String
  user_id : Nat := 0
  active : Bool := true
deriving Repr, DecidableEq

/-- Database state for the notebook-deletion methods: the notebook table and
the entry table (entries point at notebooks through notebook_id). -/
structure NbState where
  notebooks : List Notebook
  entries : List Entry
deriving Repr, DecidableEq

/-- Model of JournalNotebook.unlink (src/models/journal_notebook.py lines
132-140): when the notebook still owns entries, a UserError is raised (the
transaction aborts, so the state is left unchanged — an error result carries
only the message); otherwise the notebook row is deleted. -/
def notebook_unlink (st : NbState) (nid : Nat) : Except String NbState :=
  if (st.entries.filter (fun e => e.notebook_id = nid)) ≠ [] then
    .error "Cannot delete notebook that still has entries. Use the 'Delete Notebook' button instead."
  else
    .ok { st with notebooks := st.notebooks.filter (fun nb => nb.id ≠ nid) }

/-- Model of JournalNotebook.action_delete (src/models/journal_notebook.py
lines 117-130): first unlink every entry of the notebook (a plain delete —
journal.entry does not override unlink), then unlink the notebook itself.
The ir.actions window returned to the web client is outside the embedding. -/
def notebook_action_delete (st : NbState) (nid : Nat) : Except String NbState :=
  let st1 := { st with entries := st.entries.filter (fun e => ¬ e.notebook_id = nid) }
  notebook_unlink st1 nid

/-- Concrete store used by the C4 witness: a freshly created entry with
non-empty content. -/
def freshStore : Store :=
  { entry :=
      { id := 7, name := "Diary", content := "<p>A</p>", word_count := 1
        char_count := 1, current_version := 1 }
    versions := []
    next_vid := 1 }

/-- Python-dict upsert used by all count aggregations in
src/models/journal_mood_analysis.py (d[k] = d.get(k, 0) + 1): an existing
key is bumped in place, a new key is appended, preserving insertion order
exactly as a CPython dict does. -/
def upsert : List (String × Nat) → String → List (String × Nat)
  | [], k => [(k, 1)]
  | (k2, v) :: rest, k =>
    if k2 = k then (k2, v + 1) :: rest else (k2, v) :: upsert rest k

/-- Count aggregation over an iterated mood sequence (the for-loops building
mood_counts, recent_counts and previous_counts). -/
def moodCounts (ms : List String) : List (String × Nat) :=
  ms.foldl upsert []

/-- Python dict.get(k, 0) over the insertion-ordered association list. -/
def getCount (d : List (String × Nat)) (k : String) : Nat :=
  (d.lookup k).getD 0

/-- Scanning phase of Python max(d, key=d.get): keep the current best key
and switch only on a strictly greater value, so the first key attaining the
maximum wins. -/
def maxKeyGo (k : String) (v : Nat) : List (String × Nat) → String
  | [] => k
  | (k2, v2) :: rest =>
    if v2 > v then maxKeyGo k2 v2 rest else maxKeyGo k v rest

/-- Model of max(mood_counts, key=mood_counts.get)
(src/models/journal_mood_analysis.py line 129): iterate the dict in
insertion order keeping the strictly best value. -/
def maxKey : List (String × Nat) → Option String
  | [] => none
  | (k, v) :: rest => some (maxKeyGo k v rest)

/-- Running maximum of the scanned values (specification device for the
max scan, not part of the source). -/
def maxValGo (v : Nat) (rest : List (String × Nat)) : Nat :=
  rest.foldl (fun a p => max a p.2) v

/-- First-occurrence-preserving deduplication, modelling the enumeration of
set(list(recent_counts.keys()) + list(previous_counts.keys())); the Python
set order is arbitrary, but every mood appears exactly once and the trend
entry attached to a given mood does not depend on the enumeration order. -/
def dedupAcc (seen : List String) : List String → List String
  | [] => []
  | k :: rest =>
    if k ∈ seen then dedupAcc seen rest else k :: dedupAcc (k :: seen) rest

/-- Deduplicated key list (see dedupAcc). -/
def dedupKeys (ks : List String) : List String :=
  dedupAcc [] ks

/-- Round-half-to-even on an exact rational, modelling Python round():
nearest integer, ties to the even neighbour.  Floating-point representation
error of CPython floats is outside the embedding. -/
def roundHalfEven (q : ℚ) : ℤ :=
  if Int.fract q < 1 / 2 then ⌊q⌋
  else if Int.fract q > 1 / 2 then ⌊q⌋ + 1
  else if ⌊q⌋ % 2 = 0 then ⌊q⌋ else ⌊q⌋ + 1

/-- Python round(x, 2) on an exact rational. -/
def round2 (q : ℚ) : ℚ :=
  (roundHalfEven (q * 100) : ℚ) / 100

/-- Per-mood trend record produced by _calculate_mood_trends
(src/models/journal_mood_analysis.py lines 196-201). -/
structure Trend where
  recent_count : Nat
  previous_count : Nat
  trend_percentage : ℚ
  trend_direction : String
deriving Repr, DecidableEq

/-- Model of JournalMoodAnalysis._calculate_mood_trends
(src/models/journal_mood_analysis.py lines 152-203).  The two date-window
searches are the ORM boundary: the function receives the mood values of the
trailing-7-day entries and of the preceding-7-day entries as lists. -/
def calculate_mood_trends (recentMoods previousMoods : List String) :
    List (String × Trend) :=
  let recent_counts := moodCounts recentMoods
  let previous_counts := moodCounts previousMoods
  let all_moods :=
    dedupKeys (recent_counts.map Prod.fst ++ previous_counts.map Prod.fst)
  all_moods.map (fun mood =>
    let recent_count := getCount recent_counts mood
    let previous_count := getCount previous_counts mood
    let trend : ℚ :=
      if previous_count = 0 then (if recent_count > 0 then 100 else 0)
      else ((recent_count : ℚ) - (previous_count : ℚ)) / (previous_count : ℚ) * 100
    (mood,
      { recent_count := recent_count
        previous_count := previous_count
        trend_percentage := round2 trend
        trend_direction :=
          if trend > 0 then "up" else if trend < 0 then "down" else "stable" }))

/-- Nested per-notebook mood tally (notebook_breakdown loop,
src/models/journal_mood_analysis.py lines 135-140). -/
def nbUpsert : List (String × List (String × Nat)) → String → String →
    List (String × List (String × Nat))
  | [], nb, mood => [(nb, [(mood, 1)])]
  | (nb2, inner) :: rest, nb, mood =>
    if nb2 = nb then (nb2, upsert inner mood) :: rest
    else (nb2, inner) :: nbUpsert rest nb mood

/-- Result structure of get_mood_statistics.  The early zero return
(src/models/journal_mood_analysis.py lines 106-114) omits the period key,
hence period is optional. -/
structure MoodStats where
  total_entries : Nat
  mood_counts : List (String × Nat)
  mood_percentages : List (String × ℚ)
  most_common_mood : Option String
  mood_trends : List (String × Trend)
  notebook_breakdown : List (String × List (String × Nat))
  period : Option String
deriving Repr, DecidableEq

/-- Model of JournalMoodAnalysis.get_mood_statistics
(src/models/journal_mood_analysis.py lines 84-150).  The period-scoped
domain search is the ORM boundary: entries is the search result for the
user and period; recentMoods and previousMoods feed the trend windows as in
calculate_mood_trends. -/
def get_mood_statistics (entries : List Entry)
    (recentMoods previousMoods : List String) (period : String) : MoodStats :=
  let mood_entries := entries.filter (fun e => e.mood.isSome)
  if mood_entries = [] then
    { total_entries := 0
      mood_counts := []
      mood_percentages := []
      most_common_mood := none
      mood_trends := []
      notebook_breakdown := []
      period := none }
  else
    let moods := mood_entries.filterMap Entry.mood
    let mood_counts := moodCounts moods
    let total_entries := mood_entries.length
    let mood_percentages :=
      mood_counts.map
        (fun p => (p.1, round2 ((p.2 : ℚ) / (total_entries : ℚ) * 100)))
    let most_common_mood :=
      if mood_counts ≠ [] then maxKey mood_counts else none
    let mood_trends := calculate_mood_trends recentMoods previousMoods
    let notebook_breakdown :=
      mood_entries.foldl
        (fun acc e => nbUpsert acc e.notebook_name (e.mood.getD "")) []
    { total_entries := total_entries
      mood_counts := mood_counts
      mood_percentages := mood_percentages
      most_common_mood := most_common_mood
      mood_trends := mood_trends
      notebook_breakdown := notebook_breakdown
      period := some period }

/-- Concrete notebook state used by the C9 witness: one notebook owning one
entry, plus an unrelated notebook. -/
def nbStore : NbState :=
  { notebooks := [{ id := 1, name := "Travel" }, { id := 2, name := "Work" }]
    entries :=
      [{ id := 5, name := "Trip", content := "<p>x</p>", word_count := 1
         char_count := 1, notebook_id := 1 }] }

/-- Concrete mood-less entry used by the C8 witness. -/
def moodlessEntry : Entry :=
  { id := 3, name := "Note", content := "<p>z</p>", word_count := 1
    char_count := 1 }

/-- Concrete mood-tagged entries used by the C6 witness: two happy, two sad
(first-encountered mood is happy), one grateful. -/
def moodEntries : List Entry :=
  [{ id := 1, name := "a", content := "x", word_count := 1, char_count := 1
     mood := some "happy", notebook_name := "Travel" },
   { id := 2, name := "b", content := "x", word_count := 1, char_count := 1
     mood := some "sad", notebook_name := "Travel" },
   { id := 3, name := "c", content := "x", word_count := 1, char_count := 1
     mood := some "happy", notebook_name := "Work" },
   { id := 4, name := "d", content := "x", word_count := 1, char_count := 1
     mood := some "grateful", notebook_name := "Work" },
   { id := 5, name := "e", content := "x", word_count := 1, char_count := 1
     mood := some "sad", notebook_name := "Work" }]

/-! Text pipeline used by the comparison controller.  String scanning is
done on character lists with a fuel argument bounding the recursion depth
(the fuel is always at least the input length, so it never runs out). -/

/-- Python str.replace on character lists: scan left to right, replacing
each non-overlapping occurrence of the (non-empty) pattern. -/
def replaceChars (pat rep : List Char) : Nat → List Char → List Char
  | _, [] => []
  | 0, s => s
  | fuel + 1, c :: rest =>
    if pat ≠ [] ∧ pat.isPrefixOf (c :: rest) then
      rep ++ replaceChars pat rep fuel ((c :: rest).drop pat.length)
    else c :: replaceChars pat rep fuel rest

/-- Python str.replace. -/
def pyReplace (s pat rep : String) : String :=
  ⟨replaceChars pat.data rep.data s.data.length s.data⟩

/-- Removal of every match of the regex <[^>]+> (re.sub with empty
replacement): a literal < followed by one or more non-> characters up to
the next >; an unmatched < is kept and scanning resumes after it. -/
def stripTags : Nat → List Char → List Char
  | _, [] => []
  | 0, s => s
  | fuel + 1, c :: rest =>
    if c = '<' then
      let inner := rest.takeWhile (fun x => ¬ x = '>')
      let rest2 := rest.dropWhile (fun x => ¬ x = '>')
      if inner ≠ [] ∧ rest2 ≠ [] then stripTags fuel rest2.tail
      else c :: stripTags fuel rest
    else c :: stripTags fuel rest

/-- Model of Python html.unescape restricted to the basic named and
apostrophe/nbsp entities (the stdlib knows the full HTML5 entity table;
the claims do not depend on the exotic ones). -/
def unescapeChars : Nat → List Char → List Char
  | _, [] => []
  | 0, s => s
  | fuel + 1, c :: rest =>
    if c = '&' then
      if "amp;".data.isPrefixOf rest then '&' :: unescapeChars fuel (rest.drop 4)
      else if "lt;".data.isPrefixOf rest then '<' :: unescapeChars fuel (rest.drop 3)
      else if "gt;".data.isPrefixOf rest then '>' :: unescapeChars fuel (rest.drop 3)
      else if "quot;".data.isPrefixOf rest then '"' :: unescapeChars fuel (rest.drop 5)
      else if "#39;".data.isPrefixOf rest then
        Char.ofNat 39 :: unescapeChars fuel (rest.drop 4)
      else if "nbsp;".data.isPrefixOf rest then
        Char.ofNat 160 :: unescapeChars fuel (rest.drop 5)
      else c :: unescapeChars fuel rest
    else c :: unescapeChars fuel rest

/-- Model of the html_to_text closure inside the comparison endpoints
(src/controllers/journal_controller.py lines 147-154): empty input gives
the empty string; otherwise paragraph tags become newlines, remaining tags
are stripped, and entities are decoded. -/
def html_to_text (html : String) : String :=
  if html = "" then ""
  else
    let text := pyReplace (pyReplace html "<p>" "\n") "</p>" "\n"
    let text : String := ⟨stripTags text.data.length text.data⟩
    ⟨unescapeChars text.data.length text.data⟩

/-- Python str.splitlines(keepends=True): split after every line boundary
(newline, carriage return, the CRLF pair, and the other one-character
boundaries recognised by Python), keeping the line ends. -/
def isLineBreak (c : Char) : Bool :=
  c = '\n' ∨ c = '\r' ∨ c = Char.ofNat 11 ∨ c = Char.ofNat 12 ∨
    c = Char.ofNat 28 ∨ c = Char.ofNat 29 ∨ c = Char.ofNat 30 ∨
    c = Char.ofNat 133 ∨ c = Char.ofNat 8232 ∨ c = Char.ofNat 8233

/-- Python str.splitlines(keepends=True) accumulator loop (acc holds the
current line reversed). -/
def splitLinesKeep (acc : List Char) : List Char → List String
  | [] => if acc = [] then [] else [⟨acc.reverse⟩]
  | '\r' :: '\n' :: rest =>
    (⟨acc.reverse ++ ['\r', '\n']⟩ : String) :: splitLinesKeep [] rest
  | c :: rest =>
    if isLineBreak c then (⟨acc.reverse ++ [c]⟩ : String) :: splitLinesKeep [] rest
    else splitLinesKeep (c :: acc) rest

/-! Behavioural model of Python difflib (SequenceMatcher without junk:
no isjunk argument is passed by the controller, and the autojunk
popularity heuristic, which only triggers on sequences of at least 200
lines, is not modelled).  find_longest_match returns the longest matching
run, ties resolved to the earliest start in a then in b, exactly as the
strict-improvement scan of the stdlib does. -/

/-- Length of the common run of a and b starting at i and j, truncated to
the search ranges (fuel starts at ahi - i). -/
def runLenAux (a b : List String) (ahi bhi : Nat) : Nat → Nat → Nat → Nat
  | 0, _, _ => 0
  | fuel + 1, i, j =>
    if i < ahi ∧ j < bhi ∧ a.getD i "" = b.getD j "" then
      runLenAux a b ahi bhi fuel (i + 1) (j + 1) + 1
    else 0

/-- Length of the common run of a and b starting at i and j within the
ranges [i, ahi) and [j, bhi). -/
def runLen (a b : List String) (ahi bhi i j : Nat) : Nat :=
  runLenAux a b ahi bhi (ahi - i) i j

/-- Model of SequenceMatcher.find_longest_match on the ranges
[alo, ahi) x [blo, bhi): the longest matching run, first (smallest i, then
smallest j) on ties, (alo, blo, 0) when there is none. -/
def find_longest_match (a b : List String) (alo ahi blo bhi : Nat) :
    Nat × Nat × Nat :=
  let candidates :=
    (List.range' alo (ahi - alo)).flatMap
      (fun i => (List.range' blo (bhi - blo)).map (fun j => (i, j)))
  candidates.foldl
    (fun best ij =>
      let k := runLen a b ahi bhi ij.1 ij.2
      if k > best.2.2 then (ij.1, ij.2, k) else best)
    (alo, blo, 0)

/-- Model of the recursive block collection of
SequenceMatcher.get_matching_blocks (the stdlib uses an explicit queue and
sorts; recursing left and right of each longest match yields the sorted
list directly).  The fuel bounds the recursion depth and the initial fuel
always suffices. -/
def matchBlocksRec (a b : List String) : Nat → Nat → Nat → Nat → Nat →
    List (Nat × Nat × Nat)
  | 0, _, _, _, _ => []
  | fuel + 1, alo, ahi, blo, bhi =>
    let m := find_longest_match a b alo ahi blo bhi
    if m.2.2 = 0 then []
    else
      matchBlocksRec a b fuel alo m.1 blo m.2.1 ++ [m] ++
        matchBlocksRec a b fuel (m.1 + m.2.2) ahi (m.2.1 + m.2.2) bhi

/-- Second phase of get_matching_blocks: collapse adjacent blocks (the
running block starts as the zero block, exactly as i1 = j1 = k1 = 0 in the
stdlib). -/
def mergeAdjacent : (Nat × Nat × Nat) → List (Nat × Nat × Nat) →
    List (Nat × Nat × Nat)
  | (i1, j1, k1), [] => if k1 ≠ 0 then [(i1, j1, k1)] else []
  | (i1, j1, k1), (i2, j2, k2) :: rest =>
    if i1 + k1 = i2 ∧ j1 + k1 = j2 then mergeAdjacent (i1, j1, k1 + k2) rest
    else (if k1 ≠ 0 then [(i1, j1, k1)] else []) ++ mergeAdjacent (i2, j2, k2) rest

/-- Model of SequenceMatcher.get_matching_blocks, ending with the sentinel
(len(a), len(b), 0). -/
def get_matching_blocks (a b : List String) : List (Nat × Nat × Nat) :=
  mergeAdjacent (0, 0, 0)
    (matchBlocksRec a b (a.length + b.length + 1) 0 a.length 0 b.length) ++
    [(a.length, b.length, 0)]

/-- Opcode of SequenceMatcher.get_opcodes. -/
structure Opcode where
  tag : String
  i1 : Nat
  i2 : Nat
  j1 : Nat
  j2 : Nat
deriving Repr, DecidableEq

/-- Model of the opcode loop of SequenceMatcher.get_opcodes. -/
def opcodesGo : Nat → Nat → List (Nat × Nat × Nat) → List Opcode
  | _, _, [] => []
  | i, j, (ai, bj, size) :: rest =>
    (if i < ai ∧ j < bj then [⟨"replace", i, ai, j, bj⟩]
     else if i < ai then [⟨"delete", i, ai, j, bj⟩]
     else if j < bj then [⟨"insert", i, ai, j, bj⟩]
     else []) ++
    (if size ≠ 0 then [⟨"equal", ai, ai + size, bj, bj + size⟩] else []) ++
    opcodesGo (ai + size) (bj + size) rest

/-- Model of SequenceMatcher.get_opcodes. -/
def get_opcodes (a b : List String) : List Opcode :=
  opcodesGo 0 0 (get_matching_blocks a b)

/-- Context trim of the first opcode in get_grouped_opcodes. -/
def headTrim (n : Nat) : List Opcode → List Opcode
  | [] => []
  | op :: rest =>
    if op.tag = "equal" then
      ⟨op.tag, max op.i1 (op.i2 - n), op.i2, max op.j1 (op.j2 - n), op.j2⟩ :: rest
    else op :: rest

/-- Context trim of the last opcode in get_grouped_opcodes. -/
def lastTrim (n : Nat) : List Opcode → List Opcode
  | [] => []
  | [op] =>
    if op.tag = "equal" then
      [⟨op.tag, op.i1, min op.i2 (op.i1 + n), op.j1, min op.j2 (op.j1 + n)⟩]
    else [op]
  | op :: rest => op :: lastTrim n rest

/-- Model of SequenceMatcher.get_grouped_opcodes with context n: groups of
opcodes split at long equal stretches; a trailing group consisting of one
equal opcode is dropped (so equal inputs yield no group at all). -/
def get_grouped_opcodes (n : Nat) (codes0 : List Opcode) :
    List (List Opcode) :=
  let codes := if codes0 = [] then [⟨"equal", 0, 1, 0, 1⟩] else codes0
  let codes := lastTrim n (headTrim n codes)
  let result :=
    codes.foldl
      (fun (acc : List (List Opcode) × List Opcode) op =>
        if op.tag = "equal" ∧ op.i2 - op.i1 > n + n then
          (acc.1 ++
            [acc.2 ++
              [⟨op.tag, op.i1, min op.i2 (op.i1 + n), op.j1,
                min op.j2 (op.j1 + n)⟩]],
           [⟨op.tag, max op.i1 (op.i2 - n), op.i2, max op.j1 (op.j2 - n),
             op.j2⟩])
        else (acc.1, acc.2 ++ [op]))
      ([], [])
  if result.2 ≠ [] ∧
      ¬(result.2.length = 1 ∧
        (result.2.headD ⟨"", 0, 0, 0, 0⟩).tag = "equal") then
    result.1 ++ [result.2]
  else result.1

/-- Model of difflib._format_range_unified. -/
def format_range_unified (start stop : Nat) : String :=
  let length := stop - start
  if length = 1 then toString (start + 1)
  else
    let beginning := if length = 0 then start else start + 1
    toString beginning ++ "," ++ toString length

/-- Lines a[i1:i2] (resp. b[j1:j2]) each prefixed with the diff marker. -/
def sliceMark (a : List String) (i1 i2 : Nat) (mark : String) : List String :=
  ((a.drop i1).take (i2 - i1)).map (fun line => mark ++ line)

/-- Per-opcode output lines of difflib.unified_diff. -/
def opLines (a b : List String) (op : Opcode) : List String :=
  if op.tag = "equal" then sliceMark a op.i1 op.i2 " "
  else
    (if op.tag = "replace" ∨ op.tag = "delete" then
      sliceMark a op.i1 op.i2 "-" else []) ++
    (if op.tag = "replace" ∨ op.tag = "insert" then
      sliceMark b op.j1 op.j2 "+" else [])

/-- Model of difflib.unified_diff with lineterm newline and empty file
dates: the two file-header lines are emitted before the first group only,
then every group gets a hunk header and its marked lines. -/
def unified_diff (a b : List String) (fromfile tofile : String) :
    List String :=
  match get_grouped_opcodes 3 (get_opcodes a b) with
  | [] => []
  | groups =>
    ["--- " ++ fromfile ++ "\n", "+++ " ++ tofile ++ "\n"] ++
      groups.flatMap (fun g =>
        (match g with
         | [] => []
         | first :: _ =>
           ["@@ -" ++ format_range_unified first.i1 ((g.getLast?.getD first).i2)
             ++ " +" ++
             format_range_unified first.j1 ((g.getLast?.getD first).j2) ++
             " @@\n"]) ++
        g.flatMap (opLines a b))

/-- Python html.escape with quote=True: escape ampersand, angle brackets
and both quote characters. -/
def htmlEscape (s : String) : String :=
  ⟨s.data.flatMap (fun c =>
    if c = '&' then "&amp;".data
    else if c = '<' then "&lt;".data
    else if c = '>' then "&gt;".data
    else if c = '"' then "&quot;".data
    else if c = Char.ofNat 39 then "&#x27;".data
    else [c])⟩

/-- First character test (Python str.startswith on a one-character
pattern, as used by the diff renderer). -/
def headIs (c : Char) (s : String) : Bool :=
  match s.data with
  | [] => false
  | c2 :: _ => c2 = c

/-- Python line[1:] on the rendered diff line. -/
def dropFirst (s : String) : String :=
  ⟨s.data.drop 1⟩

/-- Rendering of one unified-diff line as an annotated div
(src/controllers/journal_controller.py lines 169-177): the plus test comes
first, then minus, then at-sign, so the two file-header lines (which start
with three pluses resp. three minuses) are classified as added resp.
removed blocks. -/
def renderDiffLine (line : String) : String :=
  if headIs '+' line then
    "<div class=\"diff-added\">+ " ++ htmlEscape (dropFirst line) ++ "</div>"
  else if headIs '-' line then
    "<div class=\"diff-removed\">- " ++ htmlEscape (dropFirst line) ++ "</div>"
  else if headIs '@' line then
    "<div class=\"diff-header\">" ++ htmlEscape line ++ "</div>"
  else
    "<div class=\"diff-context\">" ++ htmlEscape line ++ "</div>"

/-- Model of the html_diff_with_highlighting closure
(src/controllers/journal_controller.py lines 145-179): convert both HTML
contents to plain text, unified-diff the split lines (3 lines of context,
labels supplied by the caller), render each line, and fall back to the
no-changes indicator when the diff is empty. -/
def html_diff_with_highlighting (old_html new_html fromfile tofile : String) :
    String :=
  let old_text := html_to_text old_html
  let new_text := html_to_text new_html
  let diff := unified_diff (splitLinesKeep [] old_text.data)
    (splitLinesKeep [] new_text.data) fromfile tofile
  let diff_html := diff.map renderDiffLine
  if diff_html ≠ [] then String.join diff_html
  else "<div class=\"no-changes\">No changes detected</div>"

/-- Occurrence counter used to state the block counts of the rendered
diff (number of non-overlapping occurrences of a non-empty pattern). -/
def countOccsChars (pat : List Char) : Nat → List Char → Nat
  | _, [] => 0
  | 0, _ => 0
  | fuel + 1, c :: rest =>
    if pat ≠ [] ∧ pat.isPrefixOf (c :: rest) then
      countOccsChars pat fuel ((c :: rest).drop pat.length) + 1
    else countOccsChars pat fuel rest

/-- Occurrence counter over strings. -/
def countOccs (s pat : String) : Nat :=
  countOccsChars pat.data s.data.length s.data


/-! Export formatter and HTTP controllers. -/

/-- Zero-padded two-digit field of strftime. -/
def pad2 (n : Nat) : String :=
  if n < 10 then "0" ++ toString n else toString n

/-- Zero-padded four-digit year of strftime. -/
def pad4 (n : Nat) : String :=
  if n < 10 then "000" ++ toString n
  else if n < 100 then "00" ++ toString n
  else if n < 1000 then "0" ++ toString n
  else toString n

/-- English month name of strftime %B. -/
def monthName : Nat → String
  | 1 => "January"
  | 2 => "February"
  | 3 => "March"
  | 4 => "April"
  | 5 => "May"
  | 6 => "June"
  | 7 => "July"
  | 8 => "August"
  | 9 => "September"
  | 10 => "October"
  | 11 => "November"
  | 12 => "December"
  | _ => ""

/-- strftime %Y-%m-%d (also str(date)). -/
def fmtIso (d : Date) : String :=
  pad4 d.year ++ "-" ++ pad2 d.month ++ "-" ++ pad2 d.day

/-- strftime %B %d, %Y. -/
def fmtLong (d : Date) : String :=
  monthName d.month ++ " " ++ pad2 d.day ++ ", " ++ toString d.year

/-- dict(self._fields['mood'].selection).get(mood, ''): display label of a
mood code (src/models/journal_entry.py lines 88-97). -/
def mood_display : String → String
  | "happy" => "😊 Happy"
  | "sad" => "😢 Sad"
  | "excited" => "😃 Excited"
  | "angry" => "😠 Angry"
  | "peaceful" => "😌 Peaceful"
  | "anxious" => "😰 Anxious"
  | "grateful" => "🙏 Grateful"
  | "tired" => "😴 Tired"
  | _ => ""

/-- Model of JournalEntry._generate_markdown_content
(src/models/journal_entry.py lines 407-438).  The Text Normalizer call
self._get_clean_content_text() is abstracted as the function argument
cleanOf applied to the entry content (its regex pipeline is orthogonal to
the claims), and the export clock as the preformatted string now.
Python str.title() on the one-word lowercase states is String.capitalize. -/
def generate_markdown_content (e : Entry) (cleanOf : String → String)
    (now : String) : String :=
  "# " ++ e.name ++ "\n\n" ++
  "## Metadata\n\n" ++
  "- **Date:** " ++ fmtIso e.entry_date ++ "\n" ++
  "- **Notebook:** " ++ e.notebook_name ++ "\n" ++
  (if e.tag_names ≠ [] then
    "- **Tags:** " ++ String.intercalate ", " e.tag_names ++ "\n" else "") ++
  (match e.mood with
   | some m => "- **Mood:** " ++ mood_display m ++ "\n"
   | none => "") ++
  "- **Status:** " ++ e.state.capitalize ++ "\n" ++
  (if e.is_favorite then "- **Favorite:** ⭐\n" else "") ++
  "- **Words:** " ++ toString e.word_count ++ "\n" ++
  "- **Characters:** " ++ toString e.char_count ++ "\n" ++
  "- **Version:** " ++ toString (e.current_version - 1) ++ "\n" ++
  "\n## Content\n\n" ++
  cleanOf e.content ++
  "\n\n---\n*Exported from Journal on " ++ now ++ "*"

/-- Model of JournalEntry._generate_pdf_html_content
(src/models/journal_entry.py lines 440-584), transcribed from the four
f-string chunks with their conditional tag and mood rows; the export clock
is the preformatted string now. -/
def generate_pdf_html_content (e : Entry) (now : String) : String :=
  let html_content :=
  "<!DOCTYPE html>\n" ++
    "<html>\n" ++
    "<head>\n" ++
    "    <meta charset=\"UTF-8\">\n" ++
    "    <title>" ++
    htmlEscape e.name ++
    "</title>\n" ++
    "    <style>\n" ++
    "        @page \x7b\n" ++
    "            margin: 2cm;\n" ++
    "            size: A4;\n" ++
    "        \x7d\n" ++
    "        body \x7b\n" ++
    "            font-family: \"DejaVu Sans\", \"Arial\", sans-serif;\n" ++
    "            font-size: 12px;\n" ++
    "            line-height: 1.4;\n" ++
    "            color: #000000;\n" ++
    "            margin: 0;\n" ++
    "            padding: 0;\n" ++
    "        \x7d\n" ++
    "        .header \x7b\n" ++
    "            border-bottom: 3px solid #333333;\n" ++
    "            padding-bottom: 15px;\n" ++
    "            margin-bottom: 25px;\n" ++
    "        \x7d\n" ++
    "        .title \x7b\n" ++
    "            font-size: 20px;\n" ++
    "            font-weight: bold;\n" ++
    "            color: #000000;\n" ++
    "            text-align: center;\n" ++
    "            margin: 0;\n" ++
    "        \x7d\n" ++
    "        .metadata \x7b\n" ++
    "            background: #f8f9fa;\n" ++
    "            border: 1px solid #dee2e6;\n" ++
    "            padding: 15px;\n" ++
    "            margin: 20px 0;\n" ++
    "            border-radius: 4px;\n" ++
    "        \x7d\n" ++
    "        .metadata-row \x7b\n" ++
    "            margin: 6px 0;\n" ++
    "            display: flex;\n" ++
    "        \x7d\n" ++
    "        .metadata-label \x7b\n" ++
    "            font-weight: bold;\n" ++
    "            min-width: 100px;\n" ++
    "            color: #495057;\n" ++
    "        \x7d\n" ++
    "        .metadata-value \x7b\n" ++
    "            flex: 1;\n" ++
    "        \x7d\n" ++
    "        .content \x7b\n" ++
    "            margin-top: 25px;\n" ++
    "        \x7d\n" ++
    "        .content p \x7b\n" ++
    "            margin-bottom: 12px;\n" ++
    "        \x7d\n" ++
    "        .content h1, .content h2, .content h3 \x7b\n" ++
    "            margin-top: 20px;\n" ++
    "            margin-bottom: 10px;\n" ++
    "            color: #000000;\n" ++
    "        \x7d\n" ++
    "        .footer \x7b\n" ++
    "            margin-top: 40px;\n" ++
    "            padding-top: 15px;\n" ++
    "            border-top: 1px solid #cccccc;\n" ++
    "            color: #666666;\n" ++
    "            font-size: 10px;\n" ++
    "            text-align: center;\n" ++
    "        \x7d\n" ++
    "        .no-content \x7b\n" ++
    "            font-style: italic;\n" ++
    "            color: #6c757d;\n" ++
    "            text-align: center;\n" ++
    "            margin: 40px 0;\n" ++
    "        \x7d\n" ++
    "    </style>\n" ++
    "</head>\n" ++
    "<body>\n" ++
    "    <div class=\"header\">\n" ++
    "        <h1 class=\"title\">" ++
    htmlEscape e.name ++
    "</h1>\n" ++
    "    </div>\n" ++
    "\n" ++
    "    <div class=\"metadata\">\n" ++
    "        <div class=\"metadata-row\">\n" ++
    "            <span class=\"metadata-label\">Date:</span>\n" ++
    "            <span class=\"metadata-value\">" ++
    fmtLong e.entry_date ++
    "</span>\n" ++
    "        </div>\n" ++
    "        <div class=\"metadata-row\">\n" ++
    "            <span class=\"metadata-label\">Notebook:</span>\n" ++
    "            <span class=\"metadata-value\">" ++
    htmlEscape e.notebook_name ++
    "</span>\n" ++
    "        </div>\n"
  let html_content := html_content ++
    (if e.tag_names ≠ [] then
  "        <div class=\"metadata-row\">\n" ++
    "            <span class=\"metadata-label\">Tags:</span>\n" ++
    "            <span class=\"metadata-value\">" ++
    htmlEscape (String.intercalate ", " e.tag_names) ++
    "</span>\n" ++
    "        </div>\n"
    else "")
  let html_content := html_content ++
    (match e.mood with
     | some m =>
       "        <div class=\"metadata-row\">\n" ++
         "            <span class=\"metadata-label\">Mood:</span>\n" ++
         "            <span class=\"metadata-value\">" ++
         htmlEscape (mood_display m) ++
         "</span>\n" ++
         "        </div>\n"
     | none => "")
  html_content ++
  "        <div class=\"metadata-row\">\n" ++
    "            <span class=\"metadata-label\">Status:</span>\n" ++
    "            <span class=\"metadata-value\">" ++
    e.state.capitalize ++
    "</span>\n" ++
    "        </div>\n" ++
    "        <div class=\"metadata-row\">\n" ++
    "            <span class=\"metadata-label\">Favorite:</span>\n" ++
    "            <span class=\"metadata-value\">" ++
    (if e.is_favorite then "⭐ Yes" else "No") ++
    "</span>\n" ++
    "        </div>\n" ++
    "        <div class=\"metadata-row\">\n" ++
    "            <span class=\"metadata-label\">Words:</span>\n" ++
    "            <span class=\"metadata-value\">" ++
    toString e.word_count ++
    "</span>\n" ++
    "        </div>\n" ++
    "        <div class=\"metadata-row\">\n" ++
    "            <span class=\"metadata-label\">Characters:</span>\n" ++
    "            <span class=\"metadata-value\">" ++
    toString e.char_count ++
    "</span>\n" ++
    "        </div>\n" ++
    "        <div class=\"metadata-row\">\n" ++
    "            <span class=\"metadata-label\">Version:</span>\n" ++
    "            <span class=\"metadata-value\">" ++
    toString (e.current_version - 1) ++
    "</span>\n" ++
    "        </div>\n" ++
    "    </div>\n" ++
    "\n" ++
    "    <div class=\"content\">\n" ++
    "        " ++
    (if e.content ≠ "" then e.content else "<p class=\"no-content\">No content available</p>") ++
    "\n" ++
    "    </div>\n" ++
    "\n" ++
    "    <div class=\"footer\">\n" ++
    "        Exported from Journal on " ++
    now ++
    "\n" ++
    "    </div>\n" ++
    "</body>\n" ++
    "</html>"

/-- HTTP response as far as the embedding observes it: not-found, an HTML
page, a file download, or markup handed to the external PDF renderer
(the wkhtmltopdf subprocess, its temporary files and its failure paths are
outside the embedding, per the spec an external collaborator). -/
inductive Response where
  | notFound : Response
  | page : String → Response
  | file : String → String → String → Response
  | pdfJob : String → Response
deriving Repr, DecidableEq

/-- Persisted tables visible to the controllers. -/
structure DB where
  entries : List Entry
  versions : List Version
deriving Repr, DecidableEq

/-- request.env['journal.entry'].browse(id) combined with exists(). -/
def browse_entry (db : DB) (id : Nat) : Option Entry :=
  db.entries.find? (fun e => e.id = id)

/-- request.env['journal.entry.version'].browse(id) combined with
exists(). -/
def browse_version (db : DB) (id : Nat) : Option Version :=
  db.versions.find? (fun v => v.id = id)

/-- Model of JournalExportController.export_pdf
(src/controllers/journal_controller.py lines 16-109): a missing entry or a
requester who is not the owner gets not-found; otherwise the generated
markup is handed to the external renderer. -/
def export_pdf (db : DB) (uid entry_id : Nat) (now : String) : Response :=
  match browse_entry db entry_id with
  | none => .notFound
  | some entry =>
    if entry.user_id ≠ uid then .notFound
    else .pdfJob (generate_pdf_html_content entry now)

/-- Model of JournalExportController.export_markdown
(src/controllers/journal_controller.py lines 111-131): same guard, then
the markdown file download with its content-disposition filename. -/
def export_markdown (db : DB) (uid entry_id : Nat) (cleanOf : String → String)
    (now : String) : Response :=
  match browse_entry db entry_id with
  | none => .notFound
  | some entry =>
    if entry.user_id ≠ uid then .notFound
    else
      .file "text/markdown; charset=utf-8"
        ("journal_entry_" ++ pyReplace entry.name " " "_" ++ "_" ++
          fmtIso entry.entry_date ++ ".md")
        (generate_markdown_content entry cleanOf now)

/-- Comparison page of compare_versions
(src/controllers/journal_controller.py lines 183-250), transcribed from
the f-string template. -/
def comparePageVersions (entry : Entry) (version1 version2 : Version)
    (diff_content : String) : String :=
  "\n" ++
  "            <!DOCTYPE html>\n" ++
  "            <html>\n" ++
  "            <head>\n" ++
  "                <meta charset=\"UTF-8\">\n" ++
  "                <title>Compare: " ++
  htmlEscape entry.name ++
  "</title>\n" ++
  "                <style>\n" ++
  "                    body \x7b font-family: Arial, sans-serif; margin: 20px; line-height: 1.6; \x7d\n" ++
  "                    .header \x7b background: #f8f9fa; padding: 20px; border-radius: 5px; margin-bottom: 20px; \x7d\n" ++
  "                    .comparison-container \x7b display: flex; gap: 20px; \x7d\n" ++
  "                    .version-panel \x7b flex: 1; border: 1px solid #dee2e6; border-radius: 5px; overflow: hidden; \x7d\n" ++
  "                    .version-header \x7b background: #e9ecef; padding: 15px; border-bottom: 1px solid #dee2e6; \x7d\n" ++
  "                    .version-content \x7b padding: 15px; max-height: 600px; overflow-y: auto; \x7d\n" ++
  "                    .diff-container \x7b flex: 1; border: 1px solid #dee2e6; border-radius: 5px; overflow: hidden; \x7d\n" ++
  "                    .diff-header \x7b background: #e9ecef; padding: 15px; border-bottom: 1px solid #dee2e6; \x7d\n" ++
  "                    .diff-content \x7b padding: 15px; max-height: 600px; overflow-y: auto; font-family: monospace; \x7d\n" ++
  "                    .diff-added \x7b background: #d4edda; color: #155724; padding: 2px 5px; margin: 1px 0; \x7d\n" ++
  "                    .diff-removed \x7b background: #f8d7da; color: #721c24; padding: 2px 5px; margin: 1px 0; \x7d\n" ++
  "                    .diff-context \x7b color: #6c757d; padding: 2px 5px; margin: 1px 0; \x7d\n" ++
  "                    .diff-header \x7b background: #fff3cd; color: #856404; padding: 5px; font-weight: bold; \x7d\n" ++
  "                    .no-changes \x7b color: #6c757d; font-style: italic; text-align: center; padding: 20px; \x7d\n" ++
  "                    .back-button \x7b margin-bottom: 20px; \x7d\n" ++
  "                    .btn \x7b padding: 8px 16px; background: #007bff; color: white; border: none; border-radius: 4px; cursor: pointer; text-decoration: none; display: inline-block; \x7d\n" ++
  "                    .btn:hover \x7b background: #0056b3; \x7d\n" ++
  "                </style>\n" ++
  "            </head>\n" ++
  "            <body>\n" ++
  "                <div class=\"header\">\n" ++
  "                    <h1>Compare Versions: " ++
  htmlEscape entry.name ++
  "</h1>\n" ++
  "                    <p>Entry: " ++
  htmlEscape entry.name ++
  " | Notebook: " ++
  htmlEscape entry.notebook_name ++
  "</p>\n" ++
  "                </div>\n" ++
  "\n" ++
  "                <div class=\"comparison-container\">\n" ++
  "                    <div class=\"version-panel\">\n" ++
  "                        <div class=\"version-header\">\n" ++
  "                            <h3>Version " ++
  toString version1.version_number ++
  "</h3>\n" ++
  "                            <small>Created: " ++
  version1.create_date ++
  " | " ++
  toString version1.word_count ++
  " words | " ++
  toString version1.char_count ++
  " chars</small>\n" ++
  "                        </div>\n" ++
  "                        <div class=\"version-content\">\n" ++
  "                            " ++
  (if version1.content ≠ "" then version1.content else "<p><em>No content</em></p>") ++
  "\n" ++
  "                        </div>\n" ++
  "                    </div>\n" ++
  "\n" ++
  "                    <div class=\"version-panel\">\n" ++
  "                        <div class=\"version-header\">\n" ++
  "                            <h3>Version " ++
  toString version2.version_number ++
  "</h3>\n" ++
  "                            <small>Created: " ++
  version2.create_date ++
  " | " ++
  toString version2.word_count ++
  " words | " ++
  toString version2.char_count ++
  " chars</small>\n" ++
  "                        </div>\n" ++
  "                        <div class=\"version-content\">\n" ++
  "                            " ++
  (if version2.content ≠ "" then version2.content else "<p><em>No content</em></p>") ++
  "\n" ++
  "                        </div>\n" ++
  "                    </div>\n" ++
  "                </div>\n" ++
  "\n" ++
  "                <div style=\"margin-top: 30px;\">\n" ++
  "                    <div class=\"diff-container\">\n" ++
  "                        <div class=\"diff-header\">\n" ++
  "                            <h3>Change Highlights</h3>\n" ++
  "                            <small>Green = Added, Red = Removed, Gray = Unchanged</small>\n" ++
  "                        </div>\n" ++
  "                        <div class=\"diff-content\">\n" ++
  "                            " ++
  diff_content ++
  "\n" ++
  "                        </div>\n" ++
  "                    </div>\n" ++
  "                </div>\n" ++
  "            </body>\n" ++
  "            </html>\n" ++
  "            "

/-- Model of JournalExportController.compare_versions
(src/controllers/journal_controller.py lines 133-259): the guard checks
only that the entry and both versions exist — the requesting user (uid) is
never compared against the entry owner — then the page with both version
contents and the rendered diff is returned. -/
def compare_versions (db : DB) (uid entry_id version1_id version2_id : Nat) :
    Response :=
  match browse_entry db entry_id, browse_version db version1_id,
      browse_version db version2_id with
  | some entry, some version1, some version2 =>
    let diff_content := html_diff_with_highlighting version1.content
      version2.content ("Version " ++ toString version1.version_number)
      ("Version " ++ toString version2.version_number)
    .page (comparePageVersions entry version1 version2 diff_content)
  | _, _, _ => .notFound

/-- Comparison page of compare_with_current
(src/controllers/journal_controller.py lines 310-378), transcribed from
the f-string template. -/
def comparePageCurrent (entry : Entry) (version : Version)
    (diff_content : String) : String :=
  "\n" ++
  "            <!DOCTYPE html>\n" ++
  "            <html>\n" ++
  "            <head>\n" ++
  "                <meta charset=\"UTF-8\">\n" ++
  "                <title>Compare with Current: " ++
  htmlEscape entry.name ++
  "</title>\n" ++
  "                <style>\n" ++
  "                    body \x7b font-family: Arial, sans-serif; margin: 20px; line-height: 1.6; \x7d\n" ++
  "                    .header \x7b background: #f8f9fa; padding: 20px; border-radius: 5px; margin-bottom: 20px; \x7d\n" ++
  "                    .comparison-container \x7b display: flex; gap: 20px; \x7d\n" ++
  "                    .version-panel \x7b flex: 1; border: 1px solid #dee2e6; border-radius: 5px; overflow: hidden; \x7d\n" ++
  "                    .version-header \x7b background: #e9ecef; padding: 15px; border-bottom: 1px solid #dee2e6; \x7d\n" ++
  "                    .version-content \x7b padding: 15px; max-height: 600px; overflow-y: auto; \x7d\n" ++
  "                    .current-version \x7b border: 2px solid #28a745; \x7d\n" ++
  "                    .diff-container \x7b flex: 1; border: 1px solid #dee2e6; border-radius: 5px; overflow: hidden; \x7d\n" ++
  "                    .diff-header \x7b background: #e9ecef; padding: 15px; border-bottom: 1px solid #dee2e6; \x7d\n" ++
  "                    .diff-content \x7b padding: 15px; max-height: 600px; overflow-y: auto; font-family: monospace; \x7d\n" ++
  "                    .diff-added \x7b background: #d4edda; color: #155724; padding: 2px 5px; margin: 1px 0; \x7d\n" ++
  "                    .diff-removed \x7b background: #f8d7da; color: #721c24; padding: 2px 5px; margin: 1px 0; \x7d\n" ++
  "                    .diff-context \x7b color: #6c757d; padding: 2px 5px; margin: 1px 0; \x7d\n" ++
  "                    .diff-header \x7b background: #fff3cd; color: #856404; padding: 5px; font-weight: bold; \x7d\n" ++
  "                    .no-changes \x7b color: #6c757d; font-style: italic; text-align: center; padding: 20px; \x7d\n" ++
  "                    .back-button \x7b margin-bottom: 20px; \x7d\n" ++
  "                    .btn \x7b padding: 8px 16px; background: #007bff; color: white; border: none; border-radius: 4px; cursor: pointer; text-decoration: none; display: inline-block; \x7d\n" ++
  "                    .btn:hover \x7b background: #0056b3; \x7d\n" ++
  "                </style>\n" ++
  "            </head>\n" ++
  "            <body>\n" ++
  "                <div class=\"header\">\n" ++
  "                    <h1>Compare with Current: " ++
  htmlEscape entry.name ++
  "</h1>\n" ++
  "                    <p>Entry: " ++
  htmlEscape entry.name ++
  " | Notebook: " ++
  htmlEscape entry.notebook_name ++
  "</p>\n" ++
  "                </div>\n" ++
  "\n" ++
  "                <div class=\"comparison-container\">\n" ++
  "                    <div class=\"version-panel\">\n" ++
  "                        <div class=\"version-header\">\n" ++
  "                            <h3>Version " ++
  toString version.version_number ++
  "</h3>\n" ++
  "                            <small>Created: " ++
  version.create_date ++
  " | " ++
  toString version.word_count ++
  " words | " ++
  toString version.char_count ++
  " chars</small>\n" ++
  "                        </div>\n" ++
  "                        <div class=\"version-content\">\n" ++
  "                            " ++
  (if version.content ≠ "" then version.content else "<p><em>No content</em></p>") ++
  "\n" ++
  "                        </div>\n" ++
  "                    </div>\n" ++
  "\n" ++
  "                    <div class=\"version-panel current-version\">\n" ++
  "                        <div class=\"version-header\">\n" ++
  "                            <h3>Current Version (v" ++
  toString (entry.current_version - 1) ++
  ")</h3>\n" ++
  "                            <small>Latest • " ++
  toString entry.word_count ++
  " words | " ++
  toString entry.char_count ++
  " chars</small>\n" ++
  "                        </div>\n" ++
  "                        <div class=\"version-content\">\n" ++
  "                            " ++
  (if entry.content ≠ "" then entry.content else "<p><em>No content</em></p>") ++
  "\n" ++
  "                        </div>\n" ++
  "                    </div>\n" ++
  "                </div>\n" ++
  "\n" ++
  "                <div style=\"margin-top: 30px;\">\n" ++
  "                    <div class=\"diff-container\">\n" ++
  "                        <div class=\"diff-header\">\n" ++
  "                            <h3>Change Highlights</h3>\n" ++
  "                            <small>Green = Added in current, Red = Removed from version, Gray = Unchanged</small>\n" ++
  "                        </div>\n" ++
  "                        <div class=\"diff-content\">\n" ++
  "                            " ++
  diff_content ++
  "\n" ++
  "                        </div>\n" ++
  "                    </div>\n" ++
  "                </div>\n" ++
  "            </body>\n" ++
  "            </html>\n" ++
  "            "

/-- Model of JournalExportController.compare_with_current
(src/controllers/journal_controller.py lines 261-387): the guard checks
only that the entry and the version exist — again no ownership check —
then the page with the version content, the live entry content and the
rendered diff is returned. -/
def compare_with_current (db : DB) (uid entry_id version_id : Nat) :
    Response :=
  match browse_entry db entry_id, browse_version db version_id with
  | some entry, some version =>
    let diff_content := html_diff_with_highlighting version.content
      entry.content ("Version " ++ toString version.version_number)
      "Current Version"
    .page (comparePageCurrent entry version diff_content)
  | _, _ => .notFound

/-- Page body of a response (empty for non-page responses). -/
def pageBody : Response → String
  | .page body => body
  | _ => ""

/-- Concrete records for the C2 evaluation: entry 1 is owned by user 2
and has two versions; the requester will be user 1. -/
def c2entry : Entry :=
  { id := 1, name := "Secret diary", content := "<p>SECRETDATA</p>"
    word_count := 1, char_count := 10, user_id := 2
    notebook_name := "Private" }

/-- First stored version of the C2 entry. -/
def c2v10 : Version :=
  { id := 10, entry_id := 1, version_number := 1
    content := "<p>OLDSECRET</p>", word_count := 1, char_count := 9 }

/-- Second stored version of the C2 entry. -/
def c2v11 : Version :=
  { id := 11, entry_id := 1, version_number := 2
    content := "<p>NEWSECRET</p>", word_count := 1, char_count := 9 }

/-- Concrete database for the C2 evaluation. -/
def c2db : DB :=
  { entries := [c2entry]
    versions := [c2v10, c2v11] }

/-- Concrete entry for the C10 witness: never content-written, counter
still 1. -/
def freshExportEntry : Entry :=
  { id := 9, name := "Morning pages", content := "<p>hello</p>"
    word_count := 1, char_count := 5, current_version := 1
    notebook_name := "Journal", entry_date := ⟨2024, 3, 5⟩ }


end Journal

namespace Journal

/-- C1 evaluation: restoring version 1 on restoreStore appends TWO new
versions (numbers 2 and 3), both capturing the pre-restore content, and
raises the version counter by two, while the entry content does end up
equal to the restored version content. -/
theorem restore_creates_two_versions :
    (action_restore_version restoreStore 10).versions.length = 3 ∧
    (action_restore_version restoreStore 10).entry.current_version = 4 ∧
    (action_restore_version restoreStore 10).versions.map Version.version_number = [1, 2, 3] ∧
    (action_restore_version restoreStore 10).versions.map Version.content =
      ["<p>A</p>", "<p>B</p>", "<p>B</p>"] ∧
    (action_restore_version restoreStore 10).entry.content = "<p>A</p>" := by
  decide

/-- C3 counterexample: a write whose vals carry a content value equal to the
entry current content still creates a version (the source only tests key
presence, not change), refuting the only-if direction of the claim. -/
theorem write_same_content_still_snapshots :
    (write rewriteStore { content := some "<p>A</p>" }).versions.length ≠
      rewriteStore.versions.length ∧
    some rewriteStore.entry.content = some "<p>A</p>" := by
  decide

/-- C3 amended: a write creates a version snapshot if and only if the
content key is present in the values dictionary AND the entry current
content is non-empty; in that case exactly the snapshot of the pre-write
state is appended and the version counter rises by one, otherwise the
version table and counter are untouched. -/
theorem write_snapshot_iff_content_key :
    ∀ (st : Store) (vals : Vals),
      (write st vals).versions =
        (if vals.content.isSome ∧ st.entry.content ≠ "" then
          st.versions ++ [snapOf st] else st.versions) ∧
      (write st vals).entry.current_version =
        (if vals.content.isSome ∧ st.entry.content ≠ "" then
          st.entry.current_version + 1 else st.entry.current_version) := by
  intro st vals
  unfold write create_version applyVals
  by_cases h1 : vals.content.isSome <;> by_cases h2 : st.entry.content = "" <;>
    simp [h1, h2]

/-- Helper: effect of a chain of content writes on the version table, the
entry identity and the version counter, for arbitrary starting state. -/
theorem writeContents_spec (cs : List String) :
    ∀ st : Store, st.entry.content ≠ "" → (∀ c ∈ cs, c ≠ "") →
      (writeContents st cs).versions.map (fun v => (v.entry_id, v.version_number)) =
        st.versions.map (fun v => (v.entry_id, v.version_number)) ++
          (List.range cs.length).map
            (fun (k : Nat) => (st.entry.id, st.entry.current_version + (k : Int))) ∧
      (writeContents st cs).entry.current_version =
        st.entry.current_version + cs.length ∧
      (writeContents st cs).entry.id = st.entry.id := by
  induction cs with
  | nil => intro st h _; simp [writeContents]
  | cons c rest ih =>
    intro st h hall
    have hc : c ≠ "" := hall c (by simp)
    have hrest : ∀ x ∈ rest, x ≠ "" := fun x hx => hall x (by simp [hx])
    have hstep :
        write st { content := some c } =
          { entry :=
              { st.entry with
                current_version := st.entry.current_version + 1
                content := c }
            versions := st.versions ++ [snapOf st]
            next_vid := st.next_vid + 1
            uid := st.uid } := by
      unfold write create_version applyVals
      simp [h]
    have ih2 := ih (write st { content := some c }) (by rw [hstep]; exact hc)
      hrest
    rw [writeContents, hstep] at *
    obtain ⟨h1, h2, h3⟩ := ih2
    refine ⟨?_, ?_, ?_⟩
    · rw [h1]
      simp only [List.map_append, List.length_cons, snapOf]
      rw [List.range_succ_eq_map]
      simp only [List.map_cons, List.map_map, List.append_assoc,
        List.cons_append, List.nil_append]
      congr 2
      · simp
      · apply List.map_congr_left
        intro k _
        simp only [Function.comp_apply]
        congr 1
        push_cast
        ring
    · rw [h2]
      simp only [List.length_cons]
      push_cast
      ring
    · rw [h3]

/-- C4: starting from a freshly created entry with non-empty content (version
counter 1, no stored versions), N successive content writes with non-empty
contents produce exactly N versions, whose sequence numbers are 1..N in
creation order, whose (entry, sequence-number) pairs are pairwise distinct,
and leave the version counter at N+1.  (The claim additionally assumes each
write changes the content; the theorem holds without that assumption.) -/
theorem n_writes_n_versions (st : Store) (cs : List String)
    (hcontent : st.entry.content ≠ "") (hfresh : st.entry.current_version = 1)
    (hnovers : st.versions = []) (hall : ∀ c ∈ cs, c ≠ "") :
    (writeContents st cs).versions.length = cs.length ∧
    (writeContents st cs).versions.map Version.version_number =
      (List.range cs.length).map (fun (k : Nat) => (k : Int) + 1) ∧
    ((writeContents st cs).versions.map
      (fun v => (v.entry_id, v.version_number))).Nodup ∧
    (writeContents st cs).entry.current_version = cs.length + 1 := by
  obtain ⟨h1, h2, h3⟩ := writeContents_spec cs st hcontent hall
  rw [hnovers] at h1
  rw [hfresh] at h1 h2
  simp only [List.map_nil, List.nil_append] at h1
  have hpairs :
      (writeContents st cs).versions.map (fun v => (v.entry_id, v.version_number)) =
        (List.range cs.length).map (fun (k : Nat) => (st.entry.id, (k : Int) + 1)) := by
    rw [h1]; apply List.map_congr_left; intro k _; rw [add_comm]
  refine ⟨?_, ?_, ?_, ?_⟩
  · have := congrArg List.length hpairs
    simpa using this
  · have hcomp : (writeContents st cs).versions.map Version.version_number =
        ((writeContents st cs).versions.map
          (fun v => (v.entry_id, v.version_number))).map Prod.snd := by
      rw [List.map_map]; rfl
    rw [hcomp, hpairs, List.map_map]
    apply List.map_congr_left; intro k _; rfl
  · rw [hpairs]
    refine List.Nodup.map ?_ (List.nodup_range cs.length)
    intro a b hab
    have hsnd : ((a : Int) + 1) = ((b : Int) + 1) := congrArg Prod.snd hab
    have hval : (a : Int) = b := by linarith
    exact_mod_cast hval
  · rw [h2]; ring

/-- C4 witness: two successive content writes on the fresh store yield two
versions numbered 1 and 2 and a counter of 3. -/
theorem n_writes_n_versions_witness :
    (writeContents freshStore ["<p>B</p>", "<p>C</p>"]).versions.length = 2 ∧
    (writeContents freshStore ["<p>B</p>", "<p>C</p>"]).versions.map
      Version.version_number =
      (List.range 2).map (fun k => (k : Int) + 1) ∧
    ((writeContents freshStore ["<p>B</p>", "<p>C</p>"]).versions.map
      (fun v => (v.entry_id, v.version_number))).Nodup ∧
    (writeContents freshStore ["<p>B</p>", "<p>C</p>"]).entry.current_version =
      2 + 1 := by
  have := n_writes_n_versions freshStore ["<p>B</p>", "<p>C</p>"]
    (by decide) (by decide) (by decide) (by decide)
  simpa using this

/-- C9: a notebook that still owns at least one entry cannot be hard-deleted
directly — unlink returns the instructive error and (the transaction having
aborted) notebooks and entries are unchanged — while action_delete first
deletes exactly the notebook entries and then the notebook row itself. -/
theorem notebook_delete_guard (st : NbState) (nid : Nat)
    (howns : ∃ e ∈ st.entries, e.notebook_id = nid) :
    notebook_unlink st nid =
      .error "Cannot delete notebook that still has entries. Use the 'Delete Notebook' button instead." ∧
    notebook_action_delete st nid =
      .ok { notebooks := st.notebooks.filter (fun nb => nb.id ≠ nid)
            entries := st.entries.filter (fun e => ¬ e.notebook_id = nid) } := by
  obtain ⟨e, he, hnb⟩ := howns
  constructor
  · unfold notebook_unlink
    rw [if_pos]
    intro hempty
    have : e ∈ st.entries.filter (fun x => x.notebook_id = nid) :=
      List.mem_filter.mpr ⟨he, by simp [hnb]⟩
    rw [hempty] at this
    exact absurd this (List.not_mem_nil e)
  · unfold notebook_action_delete notebook_unlink
    rw [if_neg]
    simp only [ne_eq, Decidable.not_not]
    simp [List.filter_filter]

/-- Helper: dict read through a cons cell. -/
theorem getCount_cons (k2 : String) (v : Nat) (rest : List (String × Nat))
    (k : String) :
    getCount ((k2, v) :: rest) k = if k = k2 then v else getCount rest k := by
  by_cases h : k = k2
  · simp [getCount, List.lookup, h]
  · have hb : (k == k2) = false := beq_eq_false_iff_ne.mpr h
    simp [getCount, List.lookup, hb, h]

/-- Helper: effect of a single dict upsert on a key count. -/
theorem getCount_upsert (d : List (String × Nat)) (c k : String) :
    getCount (upsert d c) k = getCount d k + (if c = k then 1 else 0) := by
  induction d with
  | nil =>
    rw [show upsert [] c = [(c, 1)] from rfl, getCount_cons]
    by_cases h : k = c
    · rw [if_pos h, if_pos h.symm]
      simp [getCount, List.lookup]
    · rw [if_neg h, if_neg (fun hh => h hh.symm)]
      omega
  | cons p rest ih =>
    obtain ⟨k2, v⟩ := p
    by_cases h2 : k2 = c
    · subst h2
      rw [show upsert ((k2, v) :: rest) k2 = (k2, v + 1) :: rest from by
        simp [upsert], getCount_cons, getCount_cons]
      by_cases h3 : k = k2
      · rw [if_pos h3, if_pos h3, if_pos h3.symm]
      · rw [if_neg h3, if_neg h3, if_neg (fun hh => h3 hh.symm)]
        omega
    · rw [show upsert ((k2, v) :: rest) c = (k2, v) :: upsert rest c from by
        simp [upsert, h2], getCount_cons, getCount_cons]
      by_cases h3 : k = k2
      · have hck : ¬ c = k := fun hh => h2 (by rw [hh, h3])
        rw [if_pos h3, if_pos h3, if_neg hck]
        omega
      · rw [if_neg h3, if_neg h3, ih]

/-- Helper: the dict built by the counting fold holds exactly the
occurrence counts of the iterated list. -/
theorem getCount_foldl (ms : List String) :
    ∀ (acc : List (String × Nat)) (k : String),
      getCount (ms.foldl upsert acc) k = getCount acc k + ms.count k := by
  induction ms with
  | nil => intro acc k; simp
  | cons c rest ih =>
    intro acc k
    rw [List.foldl_cons, ih (upsert acc c) k, getCount_upsert]
    have : (c :: rest).count k = rest.count k + (if c = k then 1 else 0) := by
      by_cases h : c = k <;> simp [List.count_cons, h, eq_comm]
    omega

/-- Helper: counts held by moodCounts are the list occurrence counts. -/
theorem getCount_moodCounts (ms : List String) (k : String) :
    getCount (moodCounts ms) k = ms.count k := by
  rw [moodCounts, getCount_foldl]
  simp [getCount, List.lookup]

/-- Helper: lookup in a map that tags each key with a computed value. -/
theorem lookup_map_tag (l : List String) (f : String → Trend) (k : String) :
    (l.map (fun m => (m, f m))).lookup k =
      if k ∈ l then some (f k) else none := by
  induction l with
  | nil => simp
  | cons a rest ih =>
    by_cases h : k = a
    · subst h; simp [List.lookup]
    · have : ¬ (k == a) = true := by simp [h]
      simp [List.lookup, this, ih, h]

/-- Helper: round(100, 2) is 100 exactly. -/
theorem round2_hundred : round2 100 = 100 := by
  norm_num [round2, roundHalfEven, Int.fract]

/-- Helper: round(0, 2) is 0 exactly. -/
theorem round2_zero : round2 0 = 0 := by
  norm_num [round2, roundHalfEven, Int.fract]

/-- Helper: reported percentage in the zero-previous-window case. -/
theorem round2_zero_case (rc : Nat) :
    round2 (if rc > 0 then (100 : ℚ) else 0) =
      if 0 < rc then (100 : ℚ) else 0 := by
  by_cases hr : 0 < rc
  · rw [if_pos hr]; exact round2_hundred
  · rw [if_neg hr]; exact round2_zero

/-- C7: every mood appearing in the week-over-week trend table carries its
two window counts; when the previous window count is zero the reported
(rounded) trend percentage is 100 for a positive recent count and 0
otherwise; and in all cases the direction label is up / down / stable
according to the sign of the percentage change, i.e. to the order between
the recent and previous counts. -/
theorem mood_trend_spec (recent previous : List String) (mood : String)
    (t : Trend)
    (hlk : (calculate_mood_trends recent previous).lookup mood = some t) :
    t.recent_count = recent.count mood ∧
    t.previous_count = previous.count mood ∧
    (t.previous_count = 0 →
      t.trend_percentage = if 0 < t.recent_count then 100 else 0) ∧
    t.trend_direction =
      (if t.previous_count < t.recent_count then "up"
       else if t.recent_count < t.previous_count then "down" else "stable") := by
  simp only [calculate_mood_trends] at hlk
  rw [lookup_map_tag] at hlk
  by_cases hmem :
      mood ∈ dedupKeys ((moodCounts recent).map Prod.fst ++
        (moodCounts previous).map Prod.fst)
  swap
  · rw [if_neg hmem] at hlk; exact absurd hlk (by simp)
  rw [if_pos hmem, Option.some_inj] at hlk
  have hq :
      t = (fun (rc pc : Nat) =>
        (fun (trend : ℚ) =>
          ({ recent_count := rc
             previous_count := pc
             trend_percentage := round2 trend
             trend_direction :=
               if trend > 0 then "up"
               else if trend < 0 then "down" else "stable" } : Trend))
          (if pc = 0 then (if rc > 0 then 100 else 0)
           else ((rc : ℚ) - (pc : ℚ)) / (pc : ℚ) * 100))
        (recent.count mood) (previous.count mood) := by
    rw [← hlk]
    simp only [getCount_moodCounts]
  clear hlk hmem
  subst hq
  refine ⟨rfl, rfl, ?_, ?_⟩
  · intro hzero
    have hz : previous.count mood = 0 := hzero
    show round2 _ = _
    rw [if_pos hz]
    exact round2_zero_case (recent.count mood)
  · show (if _ > (0 : ℚ) then "up" else _) = _
    by_cases hp : previous.count mood = 0
    · rw [if_pos hp]
      by_cases hr : 0 < recent.count mood
      · rw [if_pos hr,
          if_pos (by norm_num : (100 : ℚ) > 0), if_pos (by omega : previous.count mood < recent.count mood)]
      · rw [if_neg hr,
          if_neg (by norm_num : ¬ (0 : ℚ) > 0),
          if_neg (by norm_num : ¬ (0 : ℚ) < 0),
          if_neg (by omega : ¬ previous.count mood < recent.count mood),
          if_neg (by omega : ¬ recent.count mood < previous.count mood)]
    · rw [if_neg hp]
      have hpq : (0 : ℚ) < ((previous.count mood : Nat) : ℚ) := by
        exact_mod_cast Nat.pos_of_ne_zero hp
      rcases lt_trichotomy (recent.count mood) (previous.count mood) with hlt | heq | hgt
      · have hnum : (((recent.count mood : Nat) : ℚ) - ((previous.count mood : Nat) : ℚ)) < 0 := by
          rw [sub_neg]; exact_mod_cast hlt
        have htr :
            (((recent.count mood : Nat) : ℚ) - ((previous.count mood : Nat) : ℚ)) /
              ((previous.count mood : Nat) : ℚ) * 100 < 0 :=
          mul_neg_of_neg_of_pos (div_neg_of_neg_of_pos hnum hpq) (by norm_num)
        rw [if_neg (not_lt.mpr (le_of_lt htr)), if_pos htr,
          if_neg (by omega : ¬ previous.count mood < recent.count mood), if_pos hlt]
      · have hnum : (((recent.count mood : Nat) : ℚ) - ((previous.count mood : Nat) : ℚ)) = 0 := by
          rw [sub_eq_zero]; exact_mod_cast heq
        rw [hnum, zero_div, zero_mul,
          if_neg (by norm_num : ¬ (0 : ℚ) > 0),
          if_neg (by norm_num : ¬ (0 : ℚ) < 0),
          if_neg (by omega : ¬ previous.count mood < recent.count mood),
          if_neg (by omega : ¬ recent.count mood < previous.count mood)]
      · have hnum : (0 : ℚ) < (((recent.count mood : Nat) : ℚ) - ((previous.count mood : Nat) : ℚ)) := by
          rw [sub_pos]; exact_mod_cast hgt
        have htr :
            (0 : ℚ) < (((recent.count mood : Nat) : ℚ) - ((previous.count mood : Nat) : ℚ)) /
              ((previous.count mood : Nat) : ℚ) * 100 :=
          mul_pos (div_pos hnum hpq) (by norm_num)
        rw [if_pos htr,
          if_pos (by omega : previous.count mood < recent.count mood)]

/-- Helper: membership in the deduplicated key list. -/
theorem mem_dedupAcc (a : String) :
    ∀ (ms seen : List String),
      a ∈ dedupAcc seen ms ↔ a ∈ ms ∧ a ∉ seen := by
  intro ms
  induction ms with
  | nil => intro seen; simp [dedupAcc]
  | cons k rest ih =>
    intro seen
    by_cases hk : k ∈ seen
    · rw [show dedupAcc seen (k :: rest) = dedupAcc seen rest from by
        simp [dedupAcc, hk], ih seen, List.mem_cons]
      constructor
      · rintro ⟨h1, h2⟩; exact ⟨Or.inr h1, h2⟩
      · rintro ⟨h1 | h1, h2⟩
        · exact absurd (h1.symm ▸ hk) h2
        · exact ⟨h1, h2⟩
    · rw [show dedupAcc seen (k :: rest) = k :: dedupAcc (k :: seen) rest from by
        simp [dedupAcc, hk]]
      simp only [List.mem_cons, ih (k :: seen)]
      constructor
      · rintro (h1 | ⟨h1, h2⟩)
        · exact ⟨Or.inl h1, fun hs => hk (h1 ▸ hs)⟩
        · exact ⟨Or.inr h1, fun hs => h2 (Or.inr hs)⟩
      · rintro ⟨h1 | h1, h2⟩
        · exact Or.inl h1
        · by_cases hak : a = k
          · exact Or.inl hak
          · exact Or.inr ⟨h1, fun hs => hs.elim hak h2⟩

/-- Helper: membership in dedupKeys is plain membership. -/
theorem mem_dedupKeys (a : String) (ms : List String) :
    a ∈ dedupKeys ms ↔ a ∈ ms := by
  rw [dedupKeys, mem_dedupAcc]
  simp

/-- Helper: the deduplicated key list has no duplicates. -/
theorem dedupAcc_nodup :
    ∀ (ms seen : List String), (dedupAcc seen ms).Nodup := by
  intro ms
  induction ms with
  | nil => intro seen; simp [dedupAcc]
  | cons k rest ih =>
    intro seen
    by_cases hk : k ∈ seen
    · rw [show dedupAcc seen (k :: rest) = dedupAcc seen rest from by
        simp [dedupAcc, hk]]
      exact ih seen
    · rw [show dedupAcc seen (k :: rest) = k :: dedupAcc (k :: seen) rest from by
        simp [dedupAcc, hk], List.nodup_cons]
      refine ⟨fun hmem => ?_, ih (k :: seen)⟩
      have hpair := (mem_dedupAcc k rest (k :: seen)).mp hmem
      exact hpair.2 (List.mem_cons_self k seen)

/-- Helper: appending one element to the iterated list extends the
deduplicated key list by that element exactly when it is new. -/
theorem dedupAcc_append (c : String) :
    ∀ (ms seen : List String),
      dedupAcc seen (ms ++ [c]) =
        dedupAcc seen ms ++ (if c ∈ seen ∨ c ∈ ms then [] else [c]) := by
  intro ms
  induction ms with
  | nil =>
    intro seen
    by_cases hc : c ∈ seen
    · simp [dedupAcc, hc]
    · simp [dedupAcc, hc]
  | cons k rest ih =>
    intro seen
    rw [List.cons_append]
    by_cases hk : k ∈ seen
    · rw [show dedupAcc seen (k :: (rest ++ [c])) = dedupAcc seen (rest ++ [c]) from by
        simp [dedupAcc, hk],
        show dedupAcc seen (k :: rest) = dedupAcc seen rest from by
        simp [dedupAcc, hk], ih seen]
      congr 1
      by_cases hc : c ∈ seen ∨ c ∈ rest
      · rw [if_pos hc,
          if_pos (hc.elim Or.inl (fun h => Or.inr (List.mem_cons_of_mem k h)))]
      · rw [if_neg hc, if_neg ?_]
        rintro (h | h)
        · exact hc (Or.inl h)
        · rcases List.mem_cons.mp h with h2 | h2
          · exact hc (Or.inl (h2 ▸ hk))
          · exact hc (Or.inr h2)
    · rw [show dedupAcc seen (k :: (rest ++ [c])) =
          k :: dedupAcc (k :: seen) (rest ++ [c]) from by
        simp [dedupAcc, hk],
        show dedupAcc seen (k :: rest) = k :: dedupAcc (k :: seen) rest from by
        simp [dedupAcc, hk], ih (k :: seen), List.cons_append]
      congr 2
      by_cases hc : c ∈ k :: seen ∨ c ∈ rest
      · rw [if_pos hc, if_pos ?_]
        rcases hc with h | h
        · rcases List.mem_cons.mp h with h2 | h2
          · exact Or.inr (List.mem_cons.mpr (Or.inl h2))
          · exact Or.inl h2
        · exact Or.inr (List.mem_cons_of_mem k h)
      · rw [if_neg hc, if_neg ?_]
        rintro (h | h)
        · exact hc (Or.inl (List.mem_cons_of_mem k h))
        · rcases List.mem_cons.mp h with h2 | h2
          · exact hc (Or.inl (List.mem_cons.mpr (Or.inl h2)))
          · exact hc (Or.inr h2)

/-- Helper: keys of a dict after one upsert. -/
theorem upsert_keys (d : List (String × Nat)) (c : String) :
    (upsert d c).map Prod.fst =
      if c ∈ d.map Prod.fst then d.map Prod.fst
      else d.map Prod.fst ++ [c] := by
  induction d with
  | nil => simp [upsert]
  | cons p rest ih =>
    obtain ⟨k2, v⟩ := p
    by_cases h2 : k2 = c
    · subst h2
      simp [upsert]
    · rw [show upsert ((k2, v) :: rest) c = (k2, v) :: upsert rest c from by
        simp [upsert, h2], List.map_cons, List.map_cons, ih]
      by_cases hc : c ∈ rest.map Prod.fst
      · rw [if_pos hc, if_pos (by simp [hc])]
      · rw [if_neg hc, if_neg ?_, List.cons_append]
        simp only [List.map_cons, List.mem_cons]
        rintro (h | h)
        · exact h2 h.symm
        · exact hc h

/-- Helper: keys of the counting dict are the deduplicated iterated moods,
in first-encounter order. -/
theorem moodCounts_keys (ms : List String) :
    (moodCounts ms).map Prod.fst = dedupKeys ms := by
  induction ms using List.reverseRecOn with
  | nil => simp [moodCounts, dedupKeys, dedupAcc]
  | append_singleton ms c ih =>
    have hfold : moodCounts (ms ++ [c]) = upsert (moodCounts ms) c := by
      simp [moodCounts, List.foldl_append]
    have hrhs : dedupKeys (ms ++ [c]) =
        dedupKeys ms ++ (if c ∈ ms then [] else [c]) := by
      rw [dedupKeys, dedupAcc_append]
      rw [show dedupAcc [] ms = dedupKeys ms from rfl]
      congr 1
      by_cases hc : c ∈ ms
      · rw [if_pos (Or.inr hc), if_pos hc]
      · rw [if_neg ?_, if_neg hc]
        rintro (h | h)
        · exact absurd h (List.not_mem_nil c)
        · exact hc h
    rw [hfold, upsert_keys, ih, hrhs]
    by_cases hc : c ∈ ms
    · rw [if_pos ((mem_dedupKeys c ms).mpr hc), if_pos hc, List.append_nil]
    · rw [if_neg (fun h => hc ((mem_dedupKeys c ms).mp h)), if_neg hc]

/-- Helper: the running maximum dominates its seed. -/
theorem maxValGo_init (rest : List (String × Nat)) :
    ∀ v, v ≤ maxValGo v rest := by
  induction rest with
  | nil => intro v; exact le_refl v
  | cons hd tl ih =>
    intro v
    calc v ≤ max v hd.2 := le_max_left v hd.2
      _ ≤ maxValGo (max v hd.2) tl := ih (max v hd.2)

/-- Helper: the running maximum dominates every scanned value. -/
theorem maxValGo_mem (rest : List (String × Nat)) :
    ∀ v p, p ∈ rest → p.2 ≤ maxValGo v rest := by
  induction rest with
  | nil => intro v p hp; exact absurd hp (List.not_mem_nil p)
  | cons hd tl ih =>
    intro v p hp
    rcases List.mem_cons.mp hp with h | h
    · subst h
      calc p.2 ≤ max v p.2 := le_max_right v p.2
        _ ≤ maxValGo (max v p.2) tl := maxValGo_init tl (max v p.2)
    · exact ih (max v hd.2) p h

/-- Helper: the strict-improvement scan of max(d, key=d.get) lands on the
first element attaining the running maximum: the scanned list splits into a
strictly smaller prefix, the chosen element carrying the maximum value, and
a tail. -/
theorem maxKeyGo_split :
    ∀ (rest : List (String × Nat)) (k : String) (v : Nat),
      ∃ pre q post,
        (k, v) :: rest = pre ++ q :: post ∧
        maxKeyGo k v rest = q.1 ∧
        q.2 = maxValGo v rest ∧
        ∀ p ∈ pre, p.2 < q.2 := by
  intro rest
  induction rest with
  | nil =>
    intro k v
    exact ⟨[], (k, v), [], rfl, rfl, rfl, by simp⟩
  | cons hd tl ih =>
    intro k v
    obtain ⟨k2, v2⟩ := hd
    by_cases hgt : v2 > v
    · obtain ⟨pre, q, post, hdec, hkey, hval, hpre⟩ := ih k2 v2
      refine ⟨(k, v) :: pre, q, post, ?_, ?_, ?_, ?_⟩
      · rw [List.cons_append, ← hdec]
      · rw [show maxKeyGo k v ((k2, v2) :: tl) = maxKeyGo k2 v2 tl from by
          simp [maxKeyGo, hgt]]
        exact hkey
      · rw [show maxValGo v ((k2, v2) :: tl) = maxValGo v2 tl from by
          simp [maxValGo, Nat.max_eq_right (le_of_lt hgt)]]
        exact hval
      · intro p hp
        rcases List.mem_cons.mp hp with h | h
        · rw [h]
          calc v < v2 := hgt
            _ ≤ maxValGo v2 tl := maxValGo_init tl v2
            _ = q.2 := hval.symm
        · exact hpre p h
    · obtain ⟨pre, q, post, hdec, hkey, hval, hpre⟩ := ih k v
      have hkeystep : maxKeyGo k v ((k2, v2) :: tl) = maxKeyGo k v tl := by
        simp [maxKeyGo, hgt]
      have hvalstep : maxValGo v ((k2, v2) :: tl) = maxValGo v tl := by
        simp [maxValGo, Nat.max_eq_left (not_lt.mp hgt)]
      cases pre with
      | nil =>
        simp only [List.nil_append] at hdec
        injection hdec with hq hpost
        refine ⟨[], (k, v), (k2, v2) :: tl, rfl, ?_, ?_, by simp⟩
        · rw [hkeystep, hkey, ← hq]
        · rw [hvalstep, ← hval, ← hq]
      | cons p0 pre2 =>
        have hp0 : p0 = (k, v) := by
          have := congrArg (fun l => l.head?) hdec
          simpa using this.symm
        have htl : tl = pre2 ++ q :: post := by
          have := congrArg (fun l => l.tail) hdec
          simpa using this
        have hkv_lt : (k, v).2 < q.2 := by
          rw [← hp0]
          exact hpre p0 (List.mem_cons_self p0 pre2)
        refine ⟨(k, v) :: (k2, v2) :: pre2, q, post, ?_, ?_, ?_, ?_⟩
        · rw [List.cons_append, List.cons_append, htl]
        · rw [hkeystep]; exact hkey
        · rw [hvalstep]; exact hval
        · intro p hp
          rcases List.mem_cons.mp hp with h | h
          · rw [h]; exact hkv_lt
          · rcases List.mem_cons.mp h with h2 | h2
            · rw [h2]
              calc v2 ≤ v := not_lt.mp hgt
                _ < q.2 := hkv_lt
            · exact hpre p (List.mem_cons_of_mem p0 h2)

/-- Helper: with pairwise-distinct keys, lookup finds the value of any
member pair. -/
theorem lookup_of_mem_nodup :
    ∀ (l : List (String × Nat)), (l.map Prod.fst).Nodup →
      ∀ {k : String} {v : Nat}, (k, v) ∈ l → l.lookup k = some v := by
  intro l
  induction l with
  | nil => intro _ k v h; exact absurd h (List.not_mem_nil _)
  | cons hd tl ih =>
    intro hnd k v hmem
    obtain ⟨k2, v2⟩ := hd
    rw [List.map_cons, List.nodup_cons] at hnd
    rcases List.mem_cons.mp hmem with h | h
    · obtain ⟨hk, hv⟩ := Prod.mk.injEq .. ▸ h
      subst hk; subst hv
      simp [List.lookup]
    · by_cases hkk : k = k2
      · subst hkk
        exact absurd (List.mem_map_of_mem Prod.fst h) hnd.1
      · have hb : (k == k2) = false := beq_eq_false_iff_ne.mpr hkk
        rw [show List.lookup k ((k2, v2) :: tl) = List.lookup k tl from by
          simp [List.lookup, hb]]
        exact ih hnd.2 h

/-- Helper: the first-encounter key order of the deduplicated key list is
the first-occurrence order of the iterated list. -/
theorem dedupKeys_sorted (ms : List String) :
    (dedupKeys ms).Pairwise (fun a b => ms.indexOf a < ms.indexOf b) := by
  induction ms using List.reverseRecOn with
  | nil => simp [dedupKeys, dedupAcc]
  | append_singleton ms c ih =>
    rw [dedupKeys, dedupAcc_append,
      show dedupAcc [] ms = dedupKeys ms from rfl]
    by_cases hc : c ∈ ms
    · rw [if_pos (Or.inr hc), List.append_nil]
      refine ih.imp_of_mem ?_
      intro a b ha hb hab
      rw [List.indexOf_append_of_mem ((mem_dedupKeys a ms).mp ha),
        List.indexOf_append_of_mem ((mem_dedupKeys b ms).mp hb)]
      exact hab
    · rw [if_neg ?_]
      · rw [List.pairwise_append]
        refine ⟨ih.imp_of_mem ?_, by simp, ?_⟩
        · intro a b ha hb hab
          rw [List.indexOf_append_of_mem ((mem_dedupKeys a ms).mp ha),
            List.indexOf_append_of_mem ((mem_dedupKeys b ms).mp hb)]
          exact hab
        · intro a ha b hb
          rw [List.mem_singleton] at hb
          rw [hb]
          have hams : a ∈ ms := (mem_dedupKeys a ms).mp ha
          rw [List.indexOf_append_of_mem hams,
            List.indexOf_append_of_not_mem hc]
          calc ms.indexOf a < ms.length := List.indexOf_lt_length.mpr hams
            _ ≤ ms.length + [c].indexOf c := Nat.le_add_right _ _
      · rintro (h | h)
        · exact absurd h (List.not_mem_nil c)
        · exact hc h

/-- Helper: the max scan over the counting dict of a non-empty mood list
returns a mood of maximal count, the first-encountered one on ties. -/
theorem maxKey_first_max (ms : List String) (hms : ms ≠ []) :
    ∃ m, maxKey (moodCounts ms) = some m ∧ m ∈ ms ∧
      (∀ k ∈ ms, ms.count k ≤ ms.count m) ∧
      (∀ k ∈ ms, ms.count k = ms.count m → ms.indexOf m ≤ ms.indexOf k) := by
  have hkeys : (moodCounts ms).map Prod.fst = dedupKeys ms := moodCounts_keys ms
  have hnodup : ((moodCounts ms).map Prod.fst).Nodup := by
    rw [hkeys, dedupKeys]; exact dedupAcc_nodup ms []
  obtain ⟨m0, hm0⟩ := List.exists_mem_of_ne_nil ms hms
  have hm0k : m0 ∈ dedupKeys ms := (mem_dedupKeys m0 ms).mpr hm0
  have hne : moodCounts ms ≠ [] := by
    intro h
    rw [← hkeys, h] at hm0k
    exact absurd hm0k (List.not_mem_nil m0)
  obtain ⟨hd, tl, hcons⟩ := List.exists_cons_of_ne_nil hne
  obtain ⟨k0, v0⟩ := hd
  obtain ⟨pre, q, post, hdec, hkey, hval, hpre⟩ := maxKeyGo_split tl k0 v0
  rw [← hcons] at hdec
  have hqmem : q ∈ moodCounts ms := by
    rw [hdec]; exact List.mem_append_right pre (List.mem_cons_self q post)
  have hmkeys : q.1 ∈ dedupKeys ms := by
    rw [← hkeys]; exact List.mem_map_of_mem Prod.fst hqmem
  have hmms : q.1 ∈ ms := (mem_dedupKeys q.1 ms).mp hmkeys
  have hlkq : (moodCounts ms).lookup q.1 = some q.2 :=
    lookup_of_mem_nodup _ hnodup hqmem
  have hcountm : ms.count q.1 = q.2 := by
    have hgc := getCount_moodCounts ms q.1
    rw [getCount, hlkq] at hgc
    exact hgc.symm
  have hcount_of : ∀ k ∈ ms, ∃ p ∈ moodCounts ms, p.1 = k ∧ ms.count k = p.2 := by
    intro k hk
    have hkk : k ∈ (moodCounts ms).map Prod.fst := by
      rw [hkeys]; exact (mem_dedupKeys k ms).mpr hk
    obtain ⟨p, hpmem, hpfst⟩ := List.mem_map.mp hkk
    refine ⟨p, hpmem, hpfst, ?_⟩
    have hlkp : (moodCounts ms).lookup k = some p.2 := by
      rw [← hpfst]
      exact lookup_of_mem_nodup _ hnodup hpmem
    have hgc := getCount_moodCounts ms k
    rw [getCount, hlkp] at hgc
    exact hgc.symm
  have hall : ∀ p ∈ moodCounts ms, p.2 ≤ q.2 := by
    intro p hp
    rw [hval, hcons] at *
    rcases List.mem_cons.mp hp with h | h
    · rw [h]; exact maxValGo_init tl v0
    · exact maxValGo_mem tl v0 p h
  refine ⟨q.1, ?_, hmms, ?_, ?_⟩
  · rw [hcons, maxKey, hkey]
  · intro k hk
    obtain ⟨p, hpmem, _, hpcount⟩ := hcount_of k hk
    rw [hpcount, hcountm]
    exact hall p hpmem
  · intro k hk htie
    by_cases hkm : k = q.1
    · rw [hkm]
    · obtain ⟨p, hpmem, hpfst, hpcount⟩ := hcount_of k hk
      have hveq : p.2 = q.2 := by rw [← hpcount, htie, hcountm]
      have hnotpre : p ∉ pre := fun hin => absurd hveq (ne_of_lt (hpre p hin))
      have hql : p ∈ q :: post := by
        rw [hdec] at hpmem
        rcases List.mem_append.mp hpmem with h | h
        · exact absurd h hnotpre
        · exact h
      rcases List.mem_cons.mp hql with h | hpost
      · exact absurd (by rw [← hpfst, h]) hkm
      · have hsorted := dedupKeys_sorted ms
        rw [← hkeys, hdec, List.map_append, List.map_cons] at hsorted
        have hqpost := (List.pairwise_append.mp hsorted).2.1
        have hrel := (List.pairwise_cons.mp hqpost).1 k
          (by rw [← hpfst]; exact List.mem_map_of_mem Prod.fst hpost)
        exact le_of_lt hrel

/-- C6: for a user with at least one mood-tagged entry, most_common_mood is
a mood of maximal occurrence count among the iterated mood-tagged entries,
and on ties it is the mood whose first occurrence in the iteration order
comes first (the first-insertion order of the count dict). -/
theorem most_common_mood_first_max (entries : List Entry)
    (recentMoods previousMoods : List String) (period : String)
    (hsome : ∃ e ∈ entries, e.mood.isSome) :
    ∃ m,
      (get_mood_statistics entries recentMoods previousMoods
        period).most_common_mood = some m ∧
      m ∈ (entries.filter (fun e => e.mood.isSome)).filterMap Entry.mood ∧
      (∀ k ∈ (entries.filter (fun e => e.mood.isSome)).filterMap Entry.mood,
        ((entries.filter (fun e => e.mood.isSome)).filterMap Entry.mood).count k ≤
          ((entries.filter (fun e => e.mood.isSome)).filterMap Entry.mood).count m) ∧
      (∀ k ∈ (entries.filter (fun e => e.mood.isSome)).filterMap Entry.mood,
        ((entries.filter (fun e => e.mood.isSome)).filterMap Entry.mood).count k =
          ((entries.filter (fun e => e.mood.isSome)).filterMap Entry.mood).count m →
        ((entries.filter (fun e => e.mood.isSome)).filterMap Entry.mood).indexOf m ≤
          ((entries.filter (fun e => e.mood.isSome)).filterMap Entry.mood).indexOf k) := by
  obtain ⟨e0, he0, hm0⟩ := hsome
  have hmem_f : e0 ∈ entries.filter (fun e => e.mood.isSome) :=
    List.mem_filter.mpr ⟨he0, hm0⟩
  obtain ⟨m0, hm0eq⟩ := Option.isSome_iff_exists.mp hm0
  have hms_ne :
      (entries.filter (fun e => e.mood.isSome)).filterMap Entry.mood ≠ [] :=
    List.ne_nil_of_mem (List.mem_filterMap.mpr ⟨e0, hmem_f, hm0eq⟩)
  have hfil_ne : entries.filter (fun e => e.mood.isSome) ≠ [] :=
    List.ne_nil_of_mem hmem_f
  obtain ⟨m, hmax, hmem, hcount, htie⟩ := maxKey_first_max _ hms_ne
  have hcounts_ne :
      moodCounts ((entries.filter (fun e => e.mood.isSome)).filterMap
        Entry.mood) ≠ [] := by
    intro h
    have hk := moodCounts_keys
      ((entries.filter (fun e => e.mood.isSome)).filterMap Entry.mood)
    have hmk : m ∈ dedupKeys
        ((entries.filter (fun e => e.mood.isSome)).filterMap Entry.mood) :=
      (mem_dedupKeys m _).mpr hmem
    rw [← hk, h] at hmk
    exact absurd hmk (List.not_mem_nil m)
  refine ⟨m, ?_, hmem, hcount, htie⟩
  have hproj :
      (get_mood_statistics entries recentMoods previousMoods
        period).most_common_mood =
      (if moodCounts ((entries.filter (fun e => e.mood.isSome)).filterMap
          Entry.mood) ≠ [] then
        maxKey (moodCounts ((entries.filter (fun e => e.mood.isSome)).filterMap
          Entry.mood))
      else none) := by
    simp only [get_mood_statistics]
    rw [if_neg hfil_ne]
  rw [hproj, if_pos hcounts_ne, hmax]

/-- C6 witness: with moods iterated happy, sad, happy, grateful, sad (happy
and sad tie at two), most_common_mood is happy, the first encountered. -/
theorem most_common_mood_first_max_witness :
    ∃ m,
      (get_mood_statistics moodEntries [] [] "all").most_common_mood = some m ∧
      m ∈ (moodEntries.filter (fun e => e.mood.isSome)).filterMap Entry.mood ∧
      (∀ k ∈ (moodEntries.filter (fun e => e.mood.isSome)).filterMap Entry.mood,
        ((moodEntries.filter (fun e => e.mood.isSome)).filterMap Entry.mood).count k ≤
          ((moodEntries.filter (fun e => e.mood.isSome)).filterMap Entry.mood).count m) ∧
      (∀ k ∈ (moodEntries.filter (fun e => e.mood.isSome)).filterMap Entry.mood,
        ((moodEntries.filter (fun e => e.mood.isSome)).filterMap Entry.mood).count k =
          ((moodEntries.filter (fun e => e.mood.isSome)).filterMap Entry.mood).count m →
        ((moodEntries.filter (fun e => e.mood.isSome)).filterMap Entry.mood).indexOf m ≤
          ((moodEntries.filter (fun e => e.mood.isSome)).filterMap Entry.mood).indexOf k) :=
  most_common_mood_first_max moodEntries [] [] "all"
    ⟨moodEntries.head (by decide), by decide, by decide⟩

/-- C7 witness: one happy entry in the trailing window and none in the
preceding window give a reported trend of 100 with direction up. -/
theorem mood_trend_spec_witness :
    (calculate_mood_trends ["happy"] []).lookup "happy" =
      some ⟨1, 0, 100, "up"⟩ ∧
    (1 : Nat) = ["happy"].count "happy" ∧
    (100 : ℚ) = (if 0 < (1 : Nat) then 100 else 0) ∧
    "up" = (if (0 : Nat) < (1 : Nat) then "up"
            else if (1 : Nat) < (0 : Nat) then "down" else "stable") := by
  have hlk : (calculate_mood_trends ["happy"] []).lookup "happy" =
      some ⟨1, 0, 100, "up"⟩ := by
    have hround : round2 100 = 100 := round2_hundred
    norm_num [calculate_mood_trends, moodCounts, upsert, dedupKeys, dedupAcc,
      getCount, List.lookup, hround]
  obtain ⟨h1, h2, h3, h4⟩ :=
    mood_trend_spec ["happy"] [] "happy" ⟨1, 0, 100, "up"⟩ hlk
  exact ⟨hlk, h1, h3 rfl, h4⟩

/-- C8: a user with zero mood-tagged entries gets the zero statistics
structure — zero total, empty count, percentage, trend and breakdown maps,
and no most common mood (the embedding is a total function, so no error is
possible). -/
theorem zero_mood_statistics (entries : List Entry)
    (recentMoods previousMoods : List String) (period : String)
    (h : ∀ e ∈ entries, e.mood = none) :
    get_mood_statistics entries recentMoods previousMoods period =
      { total_entries := 0
        mood_counts := []
        mood_percentages := []
        most_common_mood := none
        mood_trends := []
        notebook_breakdown := []
        period := none } := by
  have hfilter : entries.filter (fun e => e.mood.isSome) = [] :=
    List.filter_eq_nil_iff.mpr (fun e he => by simp [h e he])
  unfold get_mood_statistics
  rw [hfilter]
  simp

/-- C8 witness: the zero structure on a concrete one-entry store whose
entry has no mood. -/
theorem zero_mood_statistics_witness :
    get_mood_statistics [moodlessEntry] ["happy"] [] "all" =
      { total_entries := 0
        mood_counts := []
        mood_percentages := []
        most_common_mood := none
        mood_trends := []
        notebook_breakdown := []
        period := none } := by
  refine zero_mood_statistics [moodlessEntry] ["happy"] [] "all" ?_
  intro e he
  simp only [List.mem_singleton] at he
  rw [he]
  rfl

/-- Helper: a run of a list against itself along the diagonal spans the
whole remaining range. -/
theorem runLenAux_self (l : List String) (n : Nat) :
    ∀ (fuel i : Nat), fuel = n - i → runLenAux l l n n fuel i i = n - i := by
  intro fuel
  induction fuel with
  | zero => intro i h; rw [runLenAux, ← h]
  | succ fuel ih =>
    intro i h
    have hi : i < n := by omega
    rw [runLenAux, if_pos ⟨hi, hi, rfl⟩, ih (i + 1) (by omega)]
    omega

/-- Helper: a run never exceeds its fuel. -/
theorem runLenAux_le (a b : List String) (ahi bhi : Nat) :
    ∀ (fuel i j : Nat), runLenAux a b ahi bhi fuel i j ≤ fuel := by
  intro fuel
  induction fuel with
  | zero => intro i j; rw [runLenAux]
  | succ fuel ih =>
    intro i j
    rw [runLenAux]
    by_cases h : i < ahi ∧ j < bhi ∧ a.getD i "" = b.getD j ""
    · rw [if_pos h]
      have := ih (i + 1) (j + 1)
      omega
    · rw [if_neg h]; omega

/-- Helper: the longest-match scan of a list against itself over the full
range finds the whole diagonal. -/
theorem find_longest_match_self (l : List String) (n : Nat) :
    find_longest_match l l 0 n 0 n = (0, 0, n) := by
  have hrun : ∀ i j, runLen l l n n i j ≤ n := by
    intro i j
    calc runLen l l n n i j ≤ n - i := runLenAux_le l l n n (n - i) i j
      _ ≤ n := Nat.sub_le n i
  have hkeep :
      ∀ (cs : List (Nat × Nat)),
        List.foldl
          (fun best ij =>
            let k := runLen l l n n ij.1 ij.2
            if k > best.2.2 then (ij.1, ij.2, k) else best)
          (0, 0, n) cs = (0, 0, n) := by
    intro cs
    induction cs with
    | nil => rfl
    | cons ij rest ih =>
      simp only [List.foldl_cons]
      have hle := hrun ij.1 ij.2
      rw [if_neg (by omega)]
      exact ih
  cases n with
  | zero => rfl
  | succ m =>
    rw [find_longest_match, Nat.sub_zero, List.range'_succ 0 m 1,
      List.flatMap_cons, List.map_cons, List.cons_append]
    simp only [List.foldl_cons]
    have hfirst : runLen l l (m + 1) (m + 1) 0 0 = m + 1 :=
      runLenAux_self l (m + 1) (m + 1 - 0) 0 rfl
    rw [hfirst, if_pos (by omega)]
    exact hkeep _

/-- Helper: the block recursion over an empty a-range finds nothing. -/
theorem matchBlocksRec_empty (a b : List String) :
    ∀ (fuel alo blo bhi : Nat), matchBlocksRec a b fuel alo alo blo bhi = [] := by
  intro fuel alo blo bhi
  cases fuel with
  | zero => rfl
  | succ fuel =>
    rw [matchBlocksRec]
    rw [show find_longest_match a b alo alo blo bhi = (alo, blo, 0) from by
      rw [find_longest_match, Nat.sub_self]; rfl]
    rw [if_pos rfl]

/-- Helper: the block recursion of a list against itself yields its one
full-length diagonal block (or nothing when empty). -/
theorem matchBlocksRec_self (l : List String) (n fuel : Nat) :
    matchBlocksRec l l (fuel + 1) 0 n 0 n =
      if n = 0 then [] else [(0, 0, n)] := by
  rw [matchBlocksRec, find_longest_match_self]
  by_cases hn : n = 0
  · rw [if_pos hn, if_pos hn]
  · rw [if_neg hn, if_neg hn]
    dsimp only
    rw [matchBlocksRec_empty]
    rw [show (0 : Nat) + n = n from Nat.zero_add n]
    rw [matchBlocksRec_empty]
    rfl

/-- Helper: matching blocks of a list against itself. -/
theorem get_matching_blocks_self (l : List String) :
    get_matching_blocks l l =
      if l.length = 0 then [(l.length, l.length, 0)]
      else [(0, 0, l.length), (l.length, l.length, 0)] := by
  rw [get_matching_blocks]
  rw [show l.length + l.length + 1 = (l.length + l.length) + 1 from rfl,
    matchBlocksRec_self]
  by_cases hn : l.length = 0
  · rw [if_pos hn, if_pos hn]
    rfl
  · rw [if_neg hn, if_neg hn]
    have hne : 0 + l.length ≠ 0 := by omega
    simp only [mergeAdjacent, Nat.add_zero, Nat.zero_add, if_pos hne]
    simp [hn]

/-- Helper: opcodes of a list against itself: a single equal opcode, or
nothing for the empty list. -/
theorem get_opcodes_self (l : List String) :
    get_opcodes l l =
      if l.length = 0 then []
      else [⟨"equal", 0, l.length, 0, l.length⟩] := by
  rw [get_opcodes, get_matching_blocks_self]
  by_cases hn : l.length = 0
  · rw [if_pos hn, if_pos hn]
    simp [opcodesGo, hn]
  · rw [if_neg hn, if_neg hn]
    simp [opcodesGo, hn]

/-- Helper: one equal opcode spanning any range produces no diff group
(the trailing lone-equal group is dropped). -/
theorem grouped_single_equal (m : Nat) :
    get_grouped_opcodes 3 [⟨"equal", 0, m, 0, m⟩] = [] := by
  have hcond : ¬ (6 < m ⊓ (m - 3 + 3) - (m - 3)) := by omega
  simp [get_grouped_opcodes, headTrim, lastTrim, hcond]

/-- Helper: the unified diff of equal line lists is empty. -/
theorem unified_diff_self (l : List String) (fromfile tofile : String) :
    unified_diff l l fromfile tofile = [] := by
  rw [unified_diff, get_opcodes_self]
  by_cases hn : l.length = 0
  · rw [if_pos hn]
    rw [show get_grouped_opcodes 3 [] = [] from by decide]
  · rw [if_neg hn, grouped_single_equal]

/-- C5 counterexample: for the plain texts a-newline-b versus a-newline-c,
the rendered diff holds TWO removed blocks and TWO added blocks (the
unified-diff file-header lines are classified as removed and added), not
exactly one removed and one added, refuting the claimed counts. -/
theorem diff_block_counts_counterexample :
    countOccs (html_diff_with_highlighting "a\nb" "a\nc"
      "Version 1" "Version 2") "diff-removed" = 2 ∧
    countOccs (html_diff_with_highlighting "a\nb" "a\nc"
      "Version 1" "Version 2") "diff-added" = 2 ∧
    countOccs (html_diff_with_highlighting "a\nb" "a\nc"
      "Version 1" "Version 2") "diff-context" = 1 ∧
    ¬ (countOccs (html_diff_with_highlighting "a\nb" "a\nc"
        "Version 1" "Version 2") "diff-removed" = 1 ∧
       countOccs (html_diff_with_highlighting "a\nb" "a\nc"
        "Version 1" "Version 2") "diff-added" = 1) := by
  decide

/-- C5 amended: two content strings with identical plain-text forms render
as the explicit no-changes indicator; and for plain texts a-newline-b
versus a-newline-c the rendered diff is exactly one removed/added pair for
the two unified-diff file-header label lines, one hunk-header block, one
context block for a, and one removed/added pair for b and c. -/
theorem diff_renderer_spec :
    (∀ (old_html new_html fromfile tofile : String),
      html_to_text old_html = html_to_text new_html →
      html_diff_with_highlighting old_html new_html fromfile tofile =
        "<div class=\"no-changes\">No changes detected</div>") ∧
    html_diff_with_highlighting "a\nb" "a\nc" "Version 1" "Version 2" =
      "<div class=\"diff-removed\">- -- Version 1\n</div>" ++
      "<div class=\"diff-added\">+ ++ Version 2\n</div>" ++
      "<div class=\"diff-header\">@@ -1,2 +1,2 @@\n</div>" ++
      "<div class=\"diff-context\"> a\n</div>" ++
      "<div class=\"diff-removed\">- b</div>" ++
      "<div class=\"diff-added\">+ c</div>" := by
  constructor
  · intro old_html new_html fromfile tofile h
    rw [html_diff_with_highlighting]
    simp only [h, unified_diff_self, List.map_nil]
    rfl
  · decide

/-- C5 witness: two HTML contents with the same plain text render as the
no-changes indicator. -/
theorem diff_renderer_spec_witness :
    html_diff_with_highlighting "<b>x</b>" "<i>x</i>"
      "Version 1" "Version 2" =
      "<div class=\"no-changes\">No changes detected</div>" :=
  diff_renderer_spec.1 "<b>x</b>" "<i>x</i>" "Version 1" "Version 2"
    (by decide)

/-- C9 witness: in the concrete two-notebook state, notebook 1 (owning one
entry) cannot be unlinked directly, and its cascading delete removes the
entry and then the notebook. -/
theorem notebook_delete_guard_witness :
    notebook_unlink nbStore 1 =
      .error "Cannot delete notebook that still has entries. Use the 'Delete Notebook' button instead." ∧
    notebook_action_delete nbStore 1 =
      .ok { notebooks := nbStore.notebooks.filter (fun nb => nb.id ≠ 1)
            entries := nbStore.entries.filter (fun e => ¬ e.notebook_id = 1) } := by
  exact notebook_delete_guard nbStore 1 ⟨nbStore.entries.head (by decide), by decide⟩


/-- Helper: the two-version comparison page contains the content of the
first compared version verbatim (or the no-content placeholder). -/
theorem comparePageVersions_contains (entry : Entry)
    (version1 version2 : Version) (diff_content : String) :
    ∃ pre post, comparePageVersions entry version1 version2 diff_content =
      pre ++
        (if version1.content ≠ "" then version1.content
         else "<p><em>No content</em></p>") ++ post := by
  refine ⟨"\n" ++
      "            <!DOCTYPE html>\n" ++
      "            <html>\n" ++
      "            <head>\n" ++
      "                <meta charset=\"UTF-8\">\n" ++
      "                <title>Compare: " ++
      htmlEscape entry.name ++
      "</title>\n" ++
      "                <style>\n" ++
      "                    body \x7b font-family: Arial, sans-serif; margin: 20px; line-height: 1.6; \x7d\n" ++
      "                    .header \x7b background: #f8f9fa; padding: 20px; border-radius: 5px; margin-bottom: 20px; \x7d\n" ++
      "                    .comparison-container \x7b display: flex; gap: 20px; \x7d\n" ++
      "                    .version-panel \x7b flex: 1; border: 1px solid #dee2e6; border-radius: 5px; overflow: hidden; \x7d\n" ++
      "                    .version-header \x7b background: #e9ecef; padding: 15px; border-bottom: 1px solid #dee2e6; \x7d\n" ++
      "                    .version-content \x7b padding: 15px; max-height: 600px; overflow-y: auto; \x7d\n" ++
      "                    .diff-container \x7b flex: 1; border: 1px solid #dee2e6; border-radius: 5px; overflow: hidden; \x7d\n" ++
      "                    .diff-header \x7b background: #e9ecef; padding: 15px; border-bottom: 1px solid #dee2e6; \x7d\n" ++
      "                    .diff-content \x7b padding: 15px; max-height: 600px; overflow-y: auto; font-family: monospace; \x7d\n" ++
      "                    .diff-added \x7b background: #d4edda; color: #155724; padding: 2px 5px; margin: 1px 0; \x7d\n" ++
      "                    .diff-removed \x7b background: #f8d7da; color: #721c24; padding: 2px 5px; margin: 1px 0; \x7d\n" ++
      "                    .diff-context \x7b color: #6c757d; padding: 2px 5px; margin: 1px 0; \x7d\n" ++
      "                    .diff-header \x7b background: #fff3cd; color: #856404; padding: 5px; font-weight: bold; \x7d\n" ++
      "                    .no-changes \x7b color: #6c757d; font-style: italic; text-align: center; padding: 20px; \x7d\n" ++
      "                    .back-button \x7b margin-bottom: 20px; \x7d\n" ++
      "                    .btn \x7b padding: 8px 16px; background: #007bff; color: white; border: none; border-radius: 4px; cursor: pointer; text-decoration: none; display: inline-block; \x7d\n" ++
      "                    .btn:hover \x7b background: #0056b3; \x7d\n" ++
      "                </style>\n" ++
      "            </head>\n" ++
      "            <body>\n" ++
      "                <div class=\"header\">\n" ++
      "                    <h1>Compare Versions: " ++
      htmlEscape entry.name ++
      "</h1>\n" ++
      "                    <p>Entry: " ++
      htmlEscape entry.name ++
      " | Notebook: " ++
      htmlEscape entry.notebook_name ++
      "</p>\n" ++
      "                </div>\n" ++
      "\n" ++
      "                <div class=\"comparison-container\">\n" ++
      "                    <div class=\"version-panel\">\n" ++
      "                        <div class=\"version-header\">\n" ++
      "                            <h3>Version " ++
      toString version1.version_number ++
      "</h3>\n" ++
      "                            <small>Created: " ++
      version1.create_date ++
      " | " ++
      toString version1.word_count ++
      " words | " ++
      toString version1.char_count ++
      " chars</small>\n" ++
      "                        </div>\n" ++
      "                        <div class=\"version-content\">\n" ++
      "                            ",
    "\n" ++
      "                        </div>\n" ++
      "                    </div>\n" ++
      "\n" ++
      "                    <div class=\"version-panel\">\n" ++
      "                        <div class=\"version-header\">\n" ++
      "                            <h3>Version " ++
      toString version2.version_number ++
      "</h3>\n" ++
      "                            <small>Created: " ++
      version2.create_date ++
      " | " ++
      toString version2.word_count ++
      " words | " ++
      toString version2.char_count ++
      " chars</small>\n" ++
      "                        </div>\n" ++
      "                        <div class=\"version-content\">\n" ++
      "                            " ++
      (if version2.content ≠ "" then version2.content else "<p><em>No content</em></p>") ++
      "\n" ++
      "                        </div>\n" ++
      "                    </div>\n" ++
      "                </div>\n" ++
      "\n" ++
      "                <div style=\"margin-top: 30px;\">\n" ++
      "                    <div class=\"diff-container\">\n" ++
      "                        <div class=\"diff-header\">\n" ++
      "                            <h3>Change Highlights</h3>\n" ++
      "                            <small>Green = Added, Red = Removed, Gray = Unchanged</small>\n" ++
      "                        </div>\n" ++
      "                        <div class=\"diff-content\">\n" ++
      "                            " ++
      diff_content ++
      "\n" ++
      "                        </div>\n" ++
      "                    </div>\n" ++
      "                </div>\n" ++
      "            </body>\n" ++
      "            </html>\n" ++
      "            ", ?_⟩
  simp only [comparePageVersions, String.append_assoc]

/-- Helper: the version-vs-current comparison page contains the live entry
content verbatim (or the no-content placeholder). -/
theorem comparePageCurrent_contains (entry : Entry) (version : Version)
    (diff_content : String) :
    ∃ pre post, comparePageCurrent entry version diff_content =
      pre ++
        (if entry.content ≠ "" then entry.content
         else "<p><em>No content</em></p>") ++ post := by
  refine ⟨"\n" ++
      "            <!DOCTYPE html>\n" ++
      "            <html>\n" ++
      "            <head>\n" ++
      "                <meta charset=\"UTF-8\">\n" ++
      "                <title>Compare with Current: " ++
      htmlEscape entry.name ++
      "</title>\n" ++
      "                <style>\n" ++
      "                    body \x7b font-family: Arial, sans-serif; margin: 20px; line-height: 1.6; \x7d\n" ++
      "                    .header \x7b background: #f8f9fa; padding: 20px; border-radius: 5px; margin-bottom: 20px; \x7d\n" ++
      "                    .comparison-container \x7b display: flex; gap: 20px; \x7d\n" ++
      "                    .version-panel \x7b flex: 1; border: 1px solid #dee2e6; border-radius: 5px; overflow: hidden; \x7d\n" ++
      "                    .version-header \x7b background: #e9ecef; padding: 15px; border-bottom: 1px solid #dee2e6; \x7d\n" ++
      "                    .version-content \x7b padding: 15px; max-height: 600px; overflow-y: auto; \x7d\n" ++
      "                    .current-version \x7b border: 2px solid #28a745; \x7d\n" ++
      "                    .diff-container \x7b flex: 1; border: 1px solid #dee2e6; border-radius: 5px; overflow: hidden; \x7d\n" ++
      "                    .diff-header \x7b background: #e9ecef; padding: 15px; border-bottom: 1px solid #dee2e6; \x7d\n" ++
      "                    .diff-content \x7b padding: 15px; max-height: 600px; overflow-y: auto; font-family: monospace; \x7d\n" ++
      "                    .diff-added \x7b background: #d4edda; color: #155724; padding: 2px 5px; margin: 1px 0; \x7d\n" ++
      "                    .diff-removed \x7b background: #f8d7da; color: #721c24; padding: 2px 5px; margin: 1px 0; \x7d\n" ++
      "                    .diff-context \x7b color: #6c757d; padding: 2px 5px; margin: 1px 0; \x7d\n" ++
      "                    .diff-header \x7b background: #fff3cd; color: #856404; padding: 5px; font-weight: bold; \x7d\n" ++
      "                    .no-changes \x7b color: #6c757d; font-style: italic; text-align: center; padding: 20px; \x7d\n" ++
      "                    .back-button \x7b margin-bottom: 20px; \x7d\n" ++
      "                    .btn \x7b padding: 8px 16px; background: #007bff; color: white; border: none; border-radius: 4px; cursor: pointer; text-decoration: none; display: inline-block; \x7d\n" ++
      "                    .btn:hover \x7b background: #0056b3; \x7d\n" ++
      "                </style>\n" ++
      "            </head>\n" ++
      "            <body>\n" ++
      "                <div class=\"header\">\n" ++
      "                    <h1>Compare with Current: " ++
      htmlEscape entry.name ++
      "</h1>\n" ++
      "                    <p>Entry: " ++
      htmlEscape entry.name ++
      " | Notebook: " ++
      htmlEscape entry.notebook_name ++
      "</p>\n" ++
      "                </div>\n" ++
      "\n" ++
      "                <div class=\"comparison-container\">\n" ++
      "                    <div class=\"version-panel\">\n" ++
      "                        <div class=\"version-header\">\n" ++
      "                            <h3>Version " ++
      toString version.version_number ++
      "</h3>\n" ++
      "                            <small>Created: " ++
      version.create_date ++
      " | " ++
      toString version.word_count ++
      " words | " ++
      toString version.char_count ++
      " chars</small>\n" ++
      "                        </div>\n" ++
      "                        <div class=\"version-content\">\n" ++
      "                            " ++
      (if version.content ≠ "" then version.content else "<p><em>No content</em></p>") ++
      "\n" ++
      "                        </div>\n" ++
      "                    </div>\n" ++
      "\n" ++
      "                    <div class=\"version-panel current-version\">\n" ++
      "                        <div class=\"version-header\">\n" ++
      "                            <h3>Current Version (v" ++
      toString (entry.current_version - 1) ++
      ")</h3>\n" ++
      "                            <small>Latest • " ++
      toString entry.word_count ++
      " words | " ++
      toString entry.char_count ++
      " chars</small>\n" ++
      "                        </div>\n" ++
      "                        <div class=\"version-content\">\n" ++
      "                            ",
    "\n" ++
      "                        </div>\n" ++
      "                    </div>\n" ++
      "                </div>\n" ++
      "\n" ++
      "                <div style=\"margin-top: 30px;\">\n" ++
      "                    <div class=\"diff-container\">\n" ++
      "                        <div class=\"diff-header\">\n" ++
      "                            <h3>Change Highlights</h3>\n" ++
      "                            <small>Green = Added in current, Red = Removed from version, Gray = Unchanged</small>\n" ++
      "                        </div>\n" ++
      "                        <div class=\"diff-content\">\n" ++
      "                            " ++
      diff_content ++
      "\n" ++
      "                        </div>\n" ++
      "                    </div>\n" ++
      "                </div>\n" ++
      "            </body>\n" ++
      "            </html>\n" ++
      "            ", ?_⟩
  simp only [comparePageCurrent, String.append_assoc]

/-- C2 evaluation: with entry 1 owned by user 2 and requester user 1, the
PDF and Markdown exports answer not-found, but both comparison endpoints
(whose guards never compare the requester with the entry owner) return the
full comparison page: the two-version page carries the stored version
content and the version-vs-current page carries the live entry content. -/
theorem compare_endpoints_skip_ownership :
    export_pdf c2db 1 1 "now" = .notFound ∧
    export_markdown c2db 1 1 (fun s => s) "now" = .notFound ∧
    (∃ body, compare_versions c2db 1 1 10 11 = .page body ∧
      ∃ pre post, body = pre ++ "<p>OLDSECRET</p>" ++ post) ∧
    (∃ body, compare_with_current c2db 1 1 10 = .page body ∧
      ∃ pre post, body = pre ++ "<p>SECRETDATA</p>" ++ post) := by
  refine ⟨rfl, rfl, ⟨_, rfl, ?_⟩, ⟨_, rfl, ?_⟩⟩
  · have h := comparePageVersions_contains c2entry c2v10 c2v11
      (html_diff_with_highlighting c2v10.content c2v11.content
        ("Version " ++ toString c2v10.version_number)
        ("Version " ++ toString c2v11.version_number))
    rw [show (if c2v10.content ≠ "" then c2v10.content
        else "<p><em>No content</em></p>") = "<p>OLDSECRET</p>" from by decide] at h
    exact h
  · have h := comparePageCurrent_contains c2entry c2v10
      (html_diff_with_highlighting c2v10.content c2entry.content
        ("Version " ++ toString c2v10.version_number) "Current Version")
    rw [show (if c2entry.content ≠ "" then c2entry.content
        else "<p><em>No content</em></p>") = "<p>SECRETDATA</p>" from by decide] at h
    exact h

/-- C10: both export generators render the Version metadata field as the
version counter minus one, so an entry that has never had a
content-modifying write (counter still 1) exports with Version 0. -/
theorem export_version_off_by_one (e : Entry) (cleanOf : String → String)
    (now : String) :
    (∃ pre post, generate_markdown_content e cleanOf now =
      pre ++ ("- **Version:** " ++ toString (e.current_version - 1) ++ "\n") ++
        post) ∧
    (∃ pre post, generate_pdf_html_content e now =
      pre ++
        ("            <span class=\"metadata-label\">Version:</span>\n" ++
          "            <span class=\"metadata-value\">" ++
          toString (e.current_version - 1) ++ "</span>\n") ++ post) ∧
    (e.current_version = 1 →
      (∃ pre post, generate_markdown_content e cleanOf now =
        pre ++ "- **Version:** 0\n" ++ post) ∧
      (∃ pre post, generate_pdf_html_content e now =
        pre ++ "            <span class=\"metadata-value\">0</span>\n" ++ post)) := by
  have hmd : ∃ pre post, generate_markdown_content e cleanOf now =
      pre ++ ("- **Version:** " ++ toString (e.current_version - 1) ++ "\n") ++
        post := by
    refine ⟨"# " ++ e.name ++ "\n\n" ++ "## Metadata\n\n" ++
      "- **Date:** " ++ fmtIso e.entry_date ++ "\n" ++
      "- **Notebook:** " ++ e.notebook_name ++ "\n" ++
      (if e.tag_names ≠ [] then
        "- **Tags:** " ++ String.intercalate ", " e.tag_names ++ "\n" else "") ++
      (match e.mood with
       | some m => "- **Mood:** " ++ mood_display m ++ "\n"
       | none => "") ++
      "- **Status:** " ++ e.state.capitalize ++ "\n" ++
      (if e.is_favorite then "- **Favorite:** ⭐\n" else "") ++
      "- **Words:** " ++ toString e.word_count ++ "\n" ++
      "- **Characters:** " ++ toString e.char_count ++ "\n",
      "\n## Content\n\n" ++ cleanOf e.content ++
        "\n\n---\n*Exported from Journal on " ++ now ++ "*", ?_⟩
    simp only [generate_markdown_content, String.append_assoc]
  have hpdf : ∃ pre post, generate_pdf_html_content e now =
      pre ++
        ("            <span class=\"metadata-label\">Version:</span>\n" ++
          "            <span class=\"metadata-value\">" ++
          toString (e.current_version - 1) ++ "</span>\n") ++ post := by
    refine ⟨("<!DOCTYPE html>\n" ++
        "<html>\n" ++
        "<head>\n" ++
        "    <meta charset=\"UTF-8\">\n" ++
        "    <title>" ++
        htmlEscape e.name ++
        "</title>\n" ++
        "    <style>\n" ++
        "        @page \x7b\n" ++
        "            margin: 2cm;\n" ++
        "            size: A4;\n" ++
        "        \x7d\n" ++
        "        body \x7b\n" ++
        "            font-family: \"DejaVu Sans\", \"Arial\", sans-serif;\n" ++
        "            font-size: 12px;\n" ++
        "            line-height: 1.4;\n" ++
        "            color: #000000;\n" ++
        "            margin: 0;\n" ++
        "            padding: 0;\n" ++
        "        \x7d\n" ++
        "        .header \x7b\n" ++
        "            border-bottom: 3px solid #333333;\n" ++
        "            padding-bottom: 15px;\n" ++
        "            margin-bottom: 25px;\n" ++
        "        \x7d\n" ++
        "        .title \x7b\n" ++
        "            font-size: 20px;\n" ++
        "            font-weight: bold;\n" ++
        "            color: #000000;\n" ++
        "            text-align: center;\n" ++
        "            margin: 0;\n" ++
        "        \x7d\n" ++
        "        .metadata \x7b\n" ++
        "            background: #f8f9fa;\n" ++
        "            border: 1px solid #dee2e6;\n" ++
        "            padding: 15px;\n" ++
        "            margin: 20px 0;\n" ++
        "            border-radius: 4px;\n" ++
        "        \x7d\n" ++
        "        .metadata-row \x7b\n" ++
        "            margin: 6px 0;\n" ++
        "            display: flex;\n" ++
        "        \x7d\n" ++
        "        .metadata-label \x7b\n" ++
        "            font-weight: bold;\n" ++
        "            min-width: 100px;\n" ++
        "            color: #495057;\n" ++
        "        \x7d\n" ++
        "        .metadata-value \x7b\n" ++
        "            flex: 1;\n" ++
        "        \x7d\n" ++
        "        .content \x7b\n" ++
        "            margin-top: 25px;\n" ++
        "        \x7d\n" ++
        "        .content p \x7b\n" ++
        "            margin-bottom: 12px;\n" ++
        "        \x7d\n" ++
        "        .content h1, .content h2, .content h3 \x7b\n" ++
        "            margin-top: 20px;\n" ++
        "            margin-bottom: 10px;\n" ++
        "            color: #000000;\n" ++
        "        \x7d\n" ++
        "        .footer \x7b\n" ++
        "            margin-top: 40px;\n" ++
        "            padding-top: 15px;\n" ++
        "            border-top: 1px solid #cccccc;\n" ++
        "            color: #666666;\n" ++
        "            font-size: 10px;\n" ++
        "            text-align: center;\n" ++
        "        \x7d\n" ++
        "        .no-content \x7b\n" ++
        "            font-style: italic;\n" ++
        "            color: #6c757d;\n" ++
        "            text-align: center;\n" ++
        "            margin: 40px 0;\n" ++
        "        \x7d\n" ++
        "    </style>\n" ++
        "</head>\n" ++
        "<body>\n" ++
        "    <div class=\"header\">\n" ++
        "        <h1 class=\"title\">" ++
        htmlEscape e.name ++
        "</h1>\n" ++
        "    </div>\n" ++
        "\n" ++
        "    <div class=\"metadata\">\n" ++
        "        <div class=\"metadata-row\">\n" ++
        "            <span class=\"metadata-label\">Date:</span>\n" ++
        "            <span class=\"metadata-value\">" ++
        fmtLong e.entry_date ++
        "</span>\n" ++
        "        </div>\n" ++
        "        <div class=\"metadata-row\">\n" ++
        "            <span class=\"metadata-label\">Notebook:</span>\n" ++
        "            <span class=\"metadata-value\">" ++
        htmlEscape e.notebook_name ++
        "</span>\n" ++
        "        </div>\n") ++
      (if e.tag_names ≠ [] then
        "        <div class=\"metadata-row\">\n" ++
          "            <span class=\"metadata-label\">Tags:</span>\n" ++
          "            <span class=\"metadata-value\">" ++
          htmlEscape (String.intercalate ", " e.tag_names) ++
          "</span>\n" ++
          "        </div>\n"
      else "") ++
      (match e.mood with
       | some m =>
         "        <div class=\"metadata-row\">\n" ++
           "            <span class=\"metadata-label\">Mood:</span>\n" ++
           "            <span class=\"metadata-value\">" ++
           htmlEscape (mood_display m) ++
           "</span>\n" ++
           "        </div>\n"
       | none => "") ++
      "        <div class=\"metadata-row\">\n" ++
      "            <span class=\"metadata-label\">Status:</span>\n" ++
      "            <span class=\"metadata-value\">" ++
      e.state.capitalize ++
      "</span>\n" ++
      "        </div>\n" ++
      "        <div class=\"metadata-row\">\n" ++
      "            <span class=\"metadata-label\">Favorite:</span>\n" ++
      "            <span class=\"metadata-value\">" ++
      (if e.is_favorite then "⭐ Yes" else "No") ++
      "</span>\n" ++
      "        </div>\n" ++
      "        <div class=\"metadata-row\">\n" ++
      "            <span class=\"metadata-label\">Words:</span>\n" ++
      "            <span class=\"metadata-value\">" ++
      toString e.word_count ++
      "</span>\n" ++
      "        </div>\n" ++
      "        <div class=\"metadata-row\">\n" ++
      "            <span class=\"metadata-label\">Characters:</span>\n" ++
      "            <span class=\"metadata-value\">" ++
      toString e.char_count ++
      "</span>\n" ++
      "        </div>\n" ++
      "        <div class=\"metadata-row\">\n",
      "        </div>\n" ++
      "    </div>\n" ++
      "\n" ++
      "    <div class=\"content\">\n" ++
      "        " ++
      (if e.content ≠ "" then e.content else "<p class=\"no-content\">No content available</p>") ++
      "\n" ++
      "    </div>\n" ++
      "\n" ++
      "    <div class=\"footer\">\n" ++
      "        Exported from Journal on " ++
      now ++
      "\n" ++
      "    </div>\n" ++
      "</body>\n" ++
      "</html>", ?_⟩
    simp only [generate_pdf_html_content, String.append_assoc]
  refine ⟨hmd, hpdf, ?_⟩
  intro hone
  constructor
  · obtain ⟨pre, post, h1⟩ := hmd
    rw [hone] at h1
    refine ⟨pre, post, ?_⟩
    rw [h1]
    rw [show "- **Version:** " ++ toString ((1 : Int) - 1) ++ "\n" =
      "- **Version:** 0\n" from by decide]
  · obtain ⟨pre, post, h2⟩ := hpdf
    rw [hone] at h2
    refine ⟨pre ++
      "            <span class=\"metadata-label\">Version:</span>\n", post, ?_⟩
    rw [h2]
    rw [show "            <span class=\"metadata-label\">Version:</span>\n" ++
        "            <span class=\"metadata-value\">" ++
        toString ((1 : Int) - 1) ++ "</span>\n" =
      "            <span class=\"metadata-label\">Version:</span>\n" ++
        ("            <span class=\"metadata-value\">0</span>\n") from by decide]
    simp only [String.append_assoc]

/-- C10 witness: the fresh entry (counter 1) exports with the Version 0
metadata line in both formats. -/
theorem export_version_off_by_one_witness :
    (∃ pre post, generate_markdown_content freshExportEntry (fun s => s)
      "2024-03-05 08:00" = pre ++ "- **Version:** 0\n" ++ post) ∧
    (∃ pre post, generate_pdf_html_content freshExportEntry
      "March 05, 2024 at 08:00" =
      pre ++ "            <span class=\"metadata-value\">0</span>\n" ++ post) :=
  (export_version_off_by_one freshExportEntry (fun s => s)
    "2024-03-05 08:00").2.2 rfl |>.1.elim
    (fun pre h => ⟨⟨pre, h⟩,
      ((export_version_off_by_one freshExportEntry (fun s => s)
        "March 05, 2024 at 08:00").2.2 rfl).2⟩)

end Journal
